import Mathlib

/-!
Shallow embedding of the TechSupport Pro ticket service
(src/modules/tickets ticket.service.ts, here src/unnamed/part_003) together
with the pieces of the shared validation layer (src/shared/types/index.ts)
and configuration (env.config.ts) that the verified claims depend on.

Conventions of the embedding:
* the Prisma store is a record of in-memory lists (`DB`);
* timestamps are `Int` milliseconds (JavaScript `Date.getTime()`);
* fallible service methods return `Except AppError`;
* Prisma update data distinguishes an absent field (skipped) from an
  explicit `null` (stored as NULL): absent is `Option.none` at the outer
  layer of `Option (Option _)` fields, explicit null is `some none`;
* JavaScript truthiness on optional strings (`if (x)`) is `strTruthy`:
  `undefined`, `null` and the empty string are falsy.
-/

deriving instance DecidableEq for Except

namespace TechSupport

/-- Enum EstadoTicket of prisma/schema (ABIERTO, EN_PROGRESO, RESUELTO, CERRADO, ESCALADO). -/
inductive EstadoTicket where
  | ABIERTO
  | EN_PROGRESO
  | RESUELTO
  | CERRADO
  | ESCALADO
  deriving DecidableEq, Repr

/-- Enum Prioridad of prisma/schema (ALTA, MEDIA, BAJA). -/
inductive Prioridad where
  | ALTA
  | MEDIA
  | BAJA
  deriving DecidableEq, Repr

/-- Enum NivelEscalamiento of prisma/schema (NIVEL_1, NIVEL_2, NIVEL_3). -/
inductive NivelEscalamiento where
  | NIVEL_1
  | NIVEL_2
  | NIVEL_3
  deriving DecidableEq, Repr

/-- Enum TipoCliente of prisma/schema (VIP, NORMAL). -/
inductive TipoCliente where
  | VIP
  | NORMAL
  deriving DecidableEq, Repr

/-- Enum Rol of prisma/schema (ADMIN, SUPERVISOR, AGENTE). -/
inductive Rol where
  | ADMIN
  | SUPERVISOR
  | AGENTE
  deriving DecidableEq, Repr

/-- String value of an EstadoTicket, as interpolated into error messages. -/
def estadoToString : EstadoTicket → String
  | .ABIERTO => "ABIERTO"
  | .EN_PROGRESO => "EN_PROGRESO"
  | .RESUELTO => "RESUELTO"
  | .CERRADO => "CERRADO"
  | .ESCALADO => "ESCALADO"

/-- Ordinal value of an escalation level, for stating monotonicity. -/
def nivelToNat : NivelEscalamiento → Nat
  | .NIVEL_1 => 1
  | .NIVEL_2 => 2
  | .NIVEL_3 => 3

/-- Row of table Cliente (fields the ticket service reads). -/
structure Cliente where
  id : String
  tipo : TipoCliente
  deriving DecidableEq, Repr

/-- Row of table Agente (fields the ticket service reads). -/
structure Agente where
  id : String
  usuarioId : String
  nivel : NivelEscalamiento
  activo : Bool
  deriving DecidableEq, Repr

/-- Row of table Ticket. Timestamps are getTime() milliseconds. -/
structure Ticket where
  id : String
  titulo : String
  descripcion : String
  clienteId : String
  agenteAsignadoId : Option String
  prioridad : Prioridad
  estado : EstadoTicket
  nivelEscalamiento : NivelEscalamiento
  fechaCreacion : Int
  fechaResolucion : Option Int
  tiempoResolucion : Option Int
  deletedAt : Option Int
  deriving DecidableEq, Repr

/-- The Prisma store: the three tables the ticket service touches. -/
structure DB where
  clientes : List Cliente
  agentes : List Agente
  tickets : List Ticket
  deriving DecidableEq, Repr

/-- AppError hierarchy of src/shared/types (NotFoundError, ForbiddenError, ValidationError). -/
inductive AppError where
  | NotFound (msg : String)
  | Forbidden (msg : String)
  | Validation (msg : String)
  deriving DecidableEq, Repr

/-- Store-level failure of a prisma write (the rejected promise of
prisma.ticket.update); not an AppError of the service layer. -/
inductive StoreError where
  | updateFailed (id : String)
  deriving DecidableEq, Repr

/-- prisma.cliente.findUnique on the primary key. -/
def findClienteById (clientes : List Cliente) (id : String) : Option Cliente :=
  clientes.find? (fun c => decide (c.id = id))

/-- prisma.agente.findUnique on the primary key. -/
def findAgenteById (agentes : List Agente) (id : String) : Option Agente :=
  agentes.find? (fun a => decide (a.id = id))

/-- prisma.agente.findUnique on the unique column usuarioId. -/
def findAgenteByUsuarioId (agentes : List Agente) (usuarioId : String) : Option Agente :=
  agentes.find? (fun a => decide (a.usuarioId = usuarioId))

/-- prisma.ticket.findUnique on the primary key. -/
def findTicketById (tickets : List Ticket) (id : String) : Option Ticket :=
  tickets.find? (fun t => decide (t.id = id))

/-- prisma.ticket.update restricted to the row with the given id: the patch
function is applied to every row whose id matches (the id is unique in a
well-formed store). -/
def updateRows (tickets : List Ticket) (id : String) (f : Ticket → Ticket) : List Ticket :=
  tickets.map (fun u => if u.id = id then f u else u)

/-- JavaScript truthiness of an optional string: undefined and the empty
string are falsy. -/
def strTruthy : Option String → Bool
  | some s => s != ""
  | none => false

/-- TicketFilters of src/shared/types; date filters carry getTime() values. -/
structure TicketFilters where
  estado : Option EstadoTicket
  prioridad : Option Prioridad
  clienteId : Option String
  agenteAsignadoId : Option String
  fechaDesde : Option Int
  fechaHasta : Option Int
  deriving Repr

/-- PaginationParams of src/shared/types. -/
structure PaginationParams where
  page : Option Nat
  pageSize : Option Nat
  deriving Repr

/-- JavaScript `x || d` on an optional number: undefined and 0 are falsy. -/
def jsOrNat (x : Option Nat) (d : Nat) : Nat :=
  match x with
  | none => d
  | some n => if n = 0 then d else n

/-- The `where` object built by getTickets. The unconditional
`deletedAt: null` conjunct is part of `ticketMatchesWhere`; the remaining
keys start absent and are assigned in source order. -/
structure TicketWhere where
  agenteAsignadoId : Option String
  estado : Option EstadoTicket
  prioridad : Option Prioridad
  clienteId : Option String
  fechaDesde : Option Int
  fechaHasta : Option Int
  deriving Repr

/-- The empty `where` object `{ deletedAt: null }`. -/
def emptyWhere : TicketWhere :=
  { agenteAsignadoId := none, estado := none, prioridad := none,
    clienteId := none, fechaDesde := none, fechaHasta := none }

/-- Predicate semantics of the `where` object handed to
prisma.ticket.findMany / count. -/
def ticketMatchesWhere (w : TicketWhere) (t : Ticket) : Bool :=
  decide (t.deletedAt = none)
  && (match w.agenteAsignadoId with
      | none => true
      | some a => decide (t.agenteAsignadoId = some a))
  && (match w.estado with
      | none => true
      | some e => decide (t.estado = e))
  && (match w.prioridad with
      | none => true
      | some p => decide (t.prioridad = p))
  && (match w.clienteId with
      | none => true
      | some c => decide (t.clienteId = c))
  && (match w.fechaDesde with
      | none => true
      | some d => decide (d ≤ t.fechaCreacion))
  && (match w.fechaHasta with
      | none => true
      | some h => decide (t.fechaCreacion ≤ h))

/-- Insertion step of the `orderBy: fechaCreacion desc` sort. -/
def insertDesc (t : Ticket) : List Ticket → List Ticket
  | [] => [t]
  | u :: us => if u.fechaCreacion ≤ t.fechaCreacion then t :: u :: us else u :: insertDesc t us

/-- Stable sort by fechaCreacion, descending. -/
def sortByFechaDesc : List Ticket → List Ticket
  | [] => []
  | t :: ts => insertDesc t (sortByFechaDesc ts)

/-- Pagination envelope returned by getTickets. -/
structure PaginationInfo where
  page : Nat
  pageSize : Nat
  totalItems : Nat
  totalPages : Nat
  hasNextPage : Bool
  hasPreviousPage : Bool
  deriving DecidableEq, Repr

/-- Return value of getTickets. -/
structure TicketPage where
  data : List Ticket
  pagination : PaginationInfo
  deriving DecidableEq, Repr

/-- TicketService.getTickets: builds the `where` object (role-forced agent
filter first, then each requested filter in source order), queries, sorts
descending by creation date and paginates. -/
def getTickets (db : DB) (filters : TicketFilters) (pagination : PaginationParams)
    (userId : String) (userRol : Rol) : Except AppError TicketPage :=
  let page := jsOrNat pagination.page 1
  let pageSize := min (jsOrNat pagination.pageSize 10) 100
  let skip := (page - 1) * pageSize
  let w0 := emptyWhere
  let forced : Except AppError TicketWhere :=
    if userRol = Rol.AGENTE then
      match findAgenteByUsuarioId db.agentes userId with
      | none => Except.error (AppError.Forbidden "No tienes un perfil de agente asociado")
      | some agente => Except.ok { w0 with agenteAsignadoId := some agente.id }
    else Except.ok w0
  match forced with
  | Except.error e => Except.error e
  | Except.ok w1 =>
    let w2 := match filters.estado with
      | some e => { w1 with estado := some e }
      | none => w1
    let w3 := match filters.prioridad with
      | some p => { w2 with prioridad := some p }
      | none => w2
    let w4 := if strTruthy filters.clienteId then { w3 with clienteId := filters.clienteId } else w3
    let w5 := if strTruthy filters.agenteAsignadoId then
        { w4 with agenteAsignadoId := filters.agenteAsignadoId }
      else w4
    let w6 := match filters.fechaDesde with
      | some d => { w5 with fechaDesde := some d }
      | none => w5
    let w7 := match filters.fechaHasta with
      | some h => { w6 with fechaHasta := some h }
      | none => w6
    let matching := db.tickets.filter (fun t => ticketMatchesWhere w7 t)
    let tickets := ((sortByFechaDesc matching).drop skip).take pageSize
    let totalItems := matching.length
    let totalPages := (totalItems + pageSize - 1) / pageSize
    Except.ok
      { data := tickets,
        pagination :=
          { page := page, pageSize := pageSize, totalItems := totalItems,
            totalPages := totalPages,
            hasNextPage := decide (page < totalPages),
            hasPreviousPage := decide (1 < page) } }

/-- TicketService.getTicketById: NotFound on a missing or soft-deleted row;
an AGENTE actor must own the ticket, otherwise Forbidden. -/
def getTicketById (db : DB) (ticketId : String) (userId : String) (userRol : Rol) :
    Except AppError Ticket :=
  match findTicketById db.tickets ticketId with
  | none => Except.error (AppError.NotFound "Ticket no encontrado")
  | some ticket =>
    if ticket.deletedAt ≠ none then
      Except.error (AppError.NotFound "Ticket no encontrado")
    else if userRol = Rol.AGENTE then
      match findAgenteByUsuarioId db.agentes userId with
      | none => Except.error (AppError.Forbidden "No tienes permiso para ver este ticket")
      | some agente =>
        if ticket.agenteAsignadoId ≠ some agente.id then
          Except.error (AppError.Forbidden "No tienes permiso para ver este ticket")
        else Except.ok ticket
    else Except.ok ticket

/-- JavaScript value of an optional string field of a request body:
undefined, null, or a string. -/
inductive JsOptStr where
  | undef
  | null
  | val (s : String)
  deriving DecidableEq, Repr

/-- JavaScript truthiness of such a value (undefined, null and the empty
string are falsy). -/
def jsOptStrTruthy : JsOptStr → Bool
  | .val s => s != ""
  | _ => false

/-- JavaScript `value !== undefined`. -/
def jsDefined : JsOptStr → Bool
  | .undef => false
  | _ => true

/-- UpdateTicketDto of src/shared/types. The body can carry an explicit
null in agenteAsignadoId, which Prisma stores as NULL, so that field keeps
all three JavaScript states; the other fields are absent-or-value. -/
structure UpdateTicketDto where
  titulo : Option String
  descripcion : Option String
  estado : Option EstadoTicket
  agenteAsignadoId : JsOptStr
  deriving Repr

/-- Transition table of TicketService.validateEstadoTransition. -/
def transicionesValidas : EstadoTicket → List EstadoTicket
  | .ABIERTO => [.EN_PROGRESO, .ESCALADO]
  | .EN_PROGRESO => [.RESUELTO, .ESCALADO]
  | .ESCALADO => [.EN_PROGRESO, .RESUELTO]
  | .RESUELTO => [.CERRADO]
  | .CERRADO => []

/-- Message of the ValidationError thrown on an illegal transition. -/
def transitionErrorMsg (estadoActual nuevoEstado : EstadoTicket) : String :=
  "No se puede cambiar de " ++ estadoToString estadoActual ++ " a " ++ estadoToString nuevoEstado

/-- TicketService.validateEstadoTransition. -/
def validateEstadoTransition (estadoActual nuevoEstado : EstadoTicket) : Except AppError Unit :=
  if nuevoEstado ∈ transicionesValidas estadoActual then Except.ok ()
  else Except.error (AppError.Validation (transitionErrorMsg estadoActual nuevoEstado))

/-- Agent-assignment checks of TicketService.updateTicket (part_003 lines
203-230), run when the patched agenteAsignadoId is truthy: the agent must
exist and be active, and an ESCALADO ticket additionally gates on the
agent's level against the ticket's escalation level. -/
def checkAgenteAsignacion (db : DB) (ticket : Ticket) (agenteId : String) : Except AppError Unit :=
  match findAgenteById db.agentes agenteId with
  | none => Except.error (AppError.NotFound "Agente no encontrado o inactivo")
  | some agente =>
    if agente.activo = false then
      Except.error (AppError.NotFound "Agente no encontrado o inactivo")
    else if ticket.estado = EstadoTicket.ESCALADO then
      if ticket.nivelEscalamiento = NivelEscalamiento.NIVEL_2 ∧
          agente.nivel = NivelEscalamiento.NIVEL_1 then
        Except.error (AppError.Forbidden
          "Agentes de nivel 1 no pueden atender tickets escalados a nivel 2")
      else if ticket.nivelEscalamiento = NivelEscalamiento.NIVEL_3 ∧
          (agente.nivel = NivelEscalamiento.NIVEL_1 ∨
           agente.nivel = NivelEscalamiento.NIVEL_2) then
        Except.error (AppError.Forbidden
          "Solo agentes de nivel 3 pueden atender tickets escalados a nivel 3")
      else Except.ok ()
    else Except.ok ()

/-- The updateData object handed to prisma.ticket.update: an absent field
(outer none) is skipped by Prisma; agenteAsignadoId distinguishes the
explicit null (some none), stored as NULL. -/
structure TicketUpdateData where
  titulo : Option String
  descripcion : Option String
  estado : Option EstadoTicket
  agenteAsignadoId : Option (Option String)
  fechaResolucion : Option Int
  tiempoResolucion : Option Int
  deriving Repr

/-- Prisma update-data view of a JavaScript optional string: undefined is
skipped, null is stored as NULL, a string is stored as itself. -/
def jsOptStrToData : JsOptStr → Option (Option String)
  | .undef => none
  | .null => some none
  | .val s => some (some s)

/-- Prisma semantics of applying updateData to the stored row: fields
absent from the data object are left untouched. -/
def applyUpdateData (d : TicketUpdateData) (t : Ticket) : Ticket :=
  { t with
    titulo := d.titulo.getD t.titulo,
    descripcion := d.descripcion.getD t.descripcion,
    estado := d.estado.getD t.estado,
    agenteAsignadoId := d.agenteAsignadoId.getD t.agenteAsignadoId,
    fechaResolucion :=
      match d.fechaResolucion with
      | none => t.fechaResolucion
      | some v => some v,
    tiempoResolucion :=
      match d.tiempoResolucion with
      | none => t.tiempoResolucion
      | some v => some v }

/-- The updateData object computed by updateTicket from the patch and the
fetched ticket: patched fields plus, on the first transition into RESUELTO,
the resolution timestamp and the floored resolution minutes. -/
def buildUpdateData (data : UpdateTicketDto) (ticket : Ticket) (now : Int) : TicketUpdateData :=
  let updateData0 : TicketUpdateData :=
    { titulo := data.titulo, descripcion := data.descripcion, estado := data.estado,
      agenteAsignadoId := jsOptStrToData data.agenteAsignadoId,
      fechaResolucion := none, tiempoResolucion := none }
  if data.estado = some EstadoTicket.RESUELTO ∧ ticket.estado ≠ EstadoTicket.RESUELTO then
    { updateData0 with
      fechaResolucion := some now,
      tiempoResolucion := some (Int.fdiv (now - ticket.fechaCreacion) (1000 * 60)) }
  else updateData0

/-- Store and returned row of updateTicket's single prisma write: the row
with the given id patched by the computed updateData. -/
def updateTicketResult (db : DB) (ticketId : String) (data : UpdateTicketDto)
    (ticket : Ticket) (now : Int) : DB × Ticket :=
  let updateData := buildUpdateData data ticket now
  ({ db with tickets := updateRows db.tickets ticketId (applyUpdateData updateData) },
   applyUpdateData updateData ticket)

/-- TicketService.updateTicket: visibility via getTicketById, transition
validation when a status is patched, agent checks when a truthy agent id is
patched, resolution stamping on the first transition into RESUELTO, then a
single prisma update. -/
def updateTicket (db : DB) (ticketId : String) (data : UpdateTicketDto)
    (userId : String) (userRol : Rol) (now : Int) : Except AppError (DB × Ticket) := do
  let ticket ← getTicketById db ticketId userId userRol
  match data.estado with
  | some nuevo => validateEstadoTransition ticket.estado nuevo
  | none => pure ()
  match data.agenteAsignadoId with
  | JsOptStr.val agenteId =>
    if agenteId != "" then checkAgenteAsignacion db ticket agenteId else pure ()
  | _ => pure ()
  pure (updateTicketResult db ticketId data ticket now)

/-- TicketService.deleteTicket: visibility via getTicketById, then a prisma
update that only sets deletedAt. -/
def deleteTicket (db : DB) (ticketId : String) (userId : String) (userRol : Rol) (now : Int) :
    Except AppError DB := do
  let _ticket ← getTicketById db ticketId userId userRol
  pure { db with
         tickets := updateRows db.tickets ticketId (fun u => { u with deletedAt := some now }) }

/-- CreateTicketDto of src/shared/types. -/
structure CreateTicketDto where
  titulo : String
  descripcion : String
  clienteId : String
  agenteAsignadoId : Option String
  deriving Repr

/-- TicketService.createTicket. The store generates the new row's id and
creation timestamp; they enter the embedding as the newId and now
parameters. -/
def createTicket (db : DB) (data : CreateTicketDto) (newId : String) (now : Int) :
    Except AppError (DB × Ticket) := do
  let cliente ←
    match findClienteById db.clientes data.clienteId with
    | none => Except.error (AppError.NotFound "Cliente no encontrado")
    | some c => Except.ok c
  match data.agenteAsignadoId with
  | some agenteId =>
    if agenteId != "" then
      match findAgenteById db.agentes agenteId with
      | none => Except.error (AppError.NotFound "Agente no encontrado o inactivo")
      | some agente =>
        if agente.activo = false then
          Except.error (AppError.NotFound "Agente no encontrado o inactivo")
        else Except.ok ()
    else Except.ok ()
  | none => Except.ok ()
  let prioridad := if cliente.tipo = TipoCliente.VIP then Prioridad.ALTA else Prioridad.MEDIA
  let ticket : Ticket :=
    { id := newId, titulo := data.titulo, descripcion := data.descripcion,
      clienteId := data.clienteId, agenteAsignadoId := data.agenteAsignadoId,
      prioridad := prioridad, estado := EstadoTicket.ABIERTO,
      nivelEscalamiento := NivelEscalamiento.NIVEL_1,
      fechaCreacion := now, fechaResolucion := none, tiempoResolucion := none,
      deletedAt := none }
  pure ({ db with tickets := db.tickets ++ [ticket] }, ticket)

/-- SLA windows of env.config (SLA_VIP_HOURS, SLA_NORMAL_HOURS, read with
parseInt, defaults 2 and 24). -/
structure SLAConfig where
  slaVipHours : Int
  slaNormalHours : Int
  deriving Repr

/-- Category of the client joined onto a ticket by the sweep's include.
The relation is required under the store's foreign key, so the lookup
cannot miss; the fallback mirrors the source's comparison
(tipo === VIP ? vip : normal), which selects the normal window for
anything that is not VIP. -/
def clienteTipoDe (clientes : List Cliente) (t : Ticket) : TipoCliente :=
  match findClienteById clientes t.clienteId with
  | some c => c.tipo
  | none => TipoCliente.NORMAL

/-- SLA window applied to a ticket by the sweep. -/
def slaHorasDe (cfg : SLAConfig) (clientes : List Cliente) (t : Ticket) : Int :=
  if clienteTipoDe clientes t = TipoCliente.VIP then cfg.slaVipHours else cfg.slaNormalHours

/-- Breach test of the sweep. The source computes
horasTranscurridas = (now - fechaCreacion) / (1000*60*60) as an exact real
quotient and compares it with `>` against the integer slaHoras; multiplying
both sides by the positive 3600000 gives the equivalent integer form used
here. -/
def excedeSLA (cfg : SLAConfig) (clientes : List Cliente) (now : Int) (t : Ticket) : Bool :=
  decide (now - t.fechaCreacion > slaHorasDe cfg clientes t * (1000 * 60 * 60))

/-- Scan predicate of the sweep's findMany: estado in
[ABIERTO, EN_PROGRESO] and deletedAt null. -/
def sweepSelecciona (t : Ticket) : Bool :=
  (decide (t.estado = EstadoTicket.ABIERTO) || decide (t.estado = EstadoTicket.EN_PROGRESO))
  && decide (t.deletedAt = none)

/-- Level written by an escalation: NIVEL_1 goes to NIVEL_2, anything else
goes to NIVEL_3. -/
def nuevoNivelDe : NivelEscalamiento → NivelEscalamiento
  | NivelEscalamiento.NIVEL_1 => NivelEscalamiento.NIVEL_2
  | _ => NivelEscalamiento.NIVEL_3

/-- Aggregate result of TicketService.escalarTicketsPorSLA. -/
structure SweepResult where
  totalRevisados : Nat
  totalEscalados : Nat
  ticketsEscalados : List String
  deriving DecidableEq, Repr

/-- Row patch written by one escalation update: estado ESCALADO and the
escalation level advanced from the given (snapshot) level. -/
def escaladoRow (nivel : NivelEscalamiento) (u : Ticket) : Ticket :=
  { u with estado := EstadoTicket.ESCALADO, nivelEscalamiento := nuevoNivelDe nivel }

/-- Loop body of escalarTicketsPorSLA over the snapshot list: each breaching
snapshot ticket gets one prisma update (estado ESCALADO, level advanced from
the snapshot's level) and its id appended. The update is awaited with no
try/catch around it, so a store failure (updateFails) aborts the loop and
rejects the whole call, keeping the updates already performed. -/
def sweepLoop (cfg : SLAConfig) (clientes : List Cliente) (now : Int)
    (updateFails : String → Bool) :
    List Ticket → List Ticket → List String → List Ticket × Except StoreError (List String)
  | [], tickets, acc => (tickets, Except.ok acc)
  | ticket :: rest, tickets, acc =>
    if excedeSLA cfg clientes now ticket then
      if updateFails ticket.id then
        (tickets, Except.error (StoreError.updateFailed ticket.id))
      else
        sweepLoop cfg clientes now updateFails rest
          (updateRows tickets ticket.id (escaladoRow ticket.nivelEscalamiento))
          (acc ++ [ticket.id])
    else
      sweepLoop cfg clientes now updateFails rest tickets acc

/-- TicketService.escalarTicketsPorSLA: snapshot the qualifying tickets,
escalate each breaching one, and return the aggregate counts; a store
failure propagates to the caller with the store left as it was at that
point. -/
def escalarTicketsPorSLA (cfg : SLAConfig) (db : DB) (now : Int)
    (updateFails : String → Bool) : DB × Except StoreError SweepResult :=
  let ticketsAbiertos := db.tickets.filter sweepSelecciona
  match sweepLoop cfg db.clientes now updateFails ticketsAbiertos db.tickets [] with
  | (tickets2, Except.ok escalados) =>
    ({ db with tickets := tickets2 },
     Except.ok { totalRevisados := ticketsAbiertos.length,
                 totalEscalados := escalados.length,
                 ticketsEscalados := escalados })
  | (tickets2, Except.error e) => ({ db with tickets := tickets2 }, Except.error e)

/-- Length of a string after String.prototype.trim, as used by
isValidString of the validation middleware. -/
def trimLength (s : String) : Nat :=
  ((s.toList.dropWhile Char.isWhitespace).reverse.dropWhile Char.isWhitespace).length

/-- isValidString of src/shared/types: the value must actually be a string
and its trimmed length must lie within the bounds. -/
def isValidString (value : JsOptStr) (minLength maxLength : Nat) : Bool :=
  match value with
  | JsOptStr.val s => decide (minLength ≤ trimLength s) && decide (trimLength s ≤ maxLength)
  | _ => false

/-- Hexadecimal digit, case-insensitive, as matched by the UUID regex. -/
def isHexChar (c : Char) : Bool :=
  c.isDigit || "abcdefABCDEF".toList.contains c

/-- isValidUUID of src/shared/types: the 8-4-4-4-12 lowercase/uppercase
hex shape of the regex, spelled out positionally. -/
def isValidUUID (s : String) : Bool :=
  let cs := s.toList
  decide (cs.length = 36) &&
  (List.range 36).all (fun i =>
    let c := cs.getD i ' '
    if i = 8 ∨ i = 13 ∨ i = 18 ∨ i = 23 then decide (c = '-') else isHexChar c)

/-- Raw request body of PATCH /tickets/:id, before validateUpdateTicket. -/
structure UpdateTicketBody where
  titulo : JsOptStr
  descripcion : JsOptStr
  estado : JsOptStr
  agenteAsignadoId : JsOptStr
  deriving Repr

/-- Status strings accepted by validateUpdateTicket. -/
def validEstadosStr : List String :=
  ["ABIERTO", "EN_PROGRESO", "RESUELTO", "CERRADO", "ESCALADO"]

/-- validateUpdateTicket of src/shared/types: at least one truthy field,
then per-field checks; a null or absent agenteAsignadoId is not checked at
all. The per-field error payload (a JSON object of messages) is abstracted
into a single Validation message here. -/
def validateUpdateTicketBody (b : UpdateTicketBody) : Except AppError Unit :=
  if !(jsOptStrTruthy b.titulo || jsOptStrTruthy b.descripcion ||
       jsOptStrTruthy b.estado || jsOptStrTruthy b.agenteAsignadoId) then
    Except.error (AppError.Validation "Se requiere al menos un campo para actualizar")
  else
    let errTitulo := jsDefined b.titulo && !isValidString b.titulo 3 200
    let errDescripcion := jsDefined b.descripcion && !isValidString b.descripcion 5 5000
    let errEstado := jsOptStrTruthy b.estado &&
      !(match b.estado with
        | JsOptStr.val s => validEstadosStr.contains s
        | _ => false)
    let errAgente := jsOptStrTruthy b.agenteAsignadoId &&
      !(match b.agenteAsignadoId with
        | JsOptStr.val s => isValidUUID s
        | _ => false)
    if errTitulo || errDescripcion || errEstado || errAgente then
      Except.error (AppError.Validation "errores de validacion de campos")
    else Except.ok ()

/-- Well-formed store: ticket primary keys are unique (the store enforces
this with a unique constraint). -/
def WF (db : DB) : Prop := (db.tickets.map Ticket.id).Nodup

/-- Resolution invariant: a row with a resolution timestamp is RESUELTO or
CERRADO. New rows satisfy it vacuously and every service operation
preserves it. -/
def ResolInv (db : DB) : Prop :=
  ∀ t ∈ db.tickets, t.fechaResolucion ≠ none →
    t.estado = EstadoTicket.RESUELTO ∨ t.estado = EstadoTicket.CERRADO

/-- One observable mutation of the store by the ticket service. Failed
service calls return an error before reaching any write, leaving the store
unchanged, so they induce no step. A created row's id is generated by the
store and is therefore fresh. -/
inductive Step : DB → DB → Prop where
  | create (db : DB) (data : CreateTicketDto) (newId : String) (now : Int) (db2 : DB) (t : Ticket) :
      createTicket db data newId now = Except.ok (db2, t) →
      newId ∉ db.tickets.map Ticket.id →
      Step db db2
  | update (db : DB) (ticketId : String) (data : UpdateTicketDto) (userId : String)
      (userRol : Rol) (now : Int) (db2 : DB) (t : Ticket) :
      updateTicket db ticketId data userId userRol now = Except.ok (db2, t) →
      Step db db2
  | delete (db : DB) (ticketId userId : String) (userRol : Rol) (now : Int) (db2 : DB) :
      deleteTicket db ticketId userId userRol now = Except.ok db2 →
      Step db db2
  | sweep (db : DB) (cfg : SLAConfig) (now : Int) (updateFails : String → Bool)
      (db2 : DB) (r : Except StoreError SweepResult) :
      escalarTicketsPorSLA cfg db now updateFails = (db2, r) →
      Step db db2

/-- Reachability of one store from another through ticket-service calls. -/
def Reach : DB → DB → Prop := Relation.ReflTransGen Step

/-- Store visible after an updateTicket call: every error is thrown before
the method's single prisma write, so a failed call leaves the store as it
was. -/
def updateTicketStore (db : DB) (ticketId : String) (data : UpdateTicketDto)
    (userId : String) (userRol : Rol) (now : Int) : DB :=
  match updateTicket db ticketId data userId userRol now with
  | Except.ok (db2, _) => db2
  | Except.error _ => db

/-- Concrete fixture: a ticket row with every field at a plain default;
scenarios override individual fields with the record-update syntax. -/
def ticketBase : Ticket :=
  { id := "t1", titulo := "x", descripcion := "y", clienteId := "c1",
    agenteAsignadoId := none, prioridad := Prioridad.MEDIA,
    estado := EstadoTicket.ABIERTO, nivelEscalamiento := NivelEscalamiento.NIVEL_1,
    fechaCreacion := 0, fechaResolucion := none, tiempoResolucion := none,
    deletedAt := none }

/-- Concrete fixture: assemble a store. -/
def mkDB (clientes : List Cliente) (agentes : List Agente) (tickets : List Ticket) : DB :=
  { clientes := clientes, agentes := agentes, tickets := tickets }

/-- Concrete fixture: an agent row. -/
def mkAgente (id usuarioId : String) (nivel : NivelEscalamiento) (activo : Bool) : Agente :=
  { id := id, usuarioId := usuarioId, nivel := nivel, activo := activo }

/-- Concrete fixture: a client row. -/
def mkCliente (id : String) (tipo : TipoCliente) : Cliente := { id := id, tipo := tipo }

/-- Concrete fixture: the empty update patch. -/
def patchNone : UpdateTicketDto :=
  { titulo := none, descripcion := none, estado := none, agenteAsignadoId := JsOptStr.undef }

/-- Concrete fixture: a patch that only sets the status. -/
def patchEstado (e : EstadoTicket) : UpdateTicketDto := { patchNone with estado := some e }

/-- Concrete fixture: a request with no filters. -/
def noFilters : TicketFilters :=
  { estado := none, prioridad := none, clienteId := none,
    agenteAsignadoId := none, fechaDesde := none, fechaHasta := none }

/-- Concrete fixture: a request with default pagination. -/
def noPagination : PaginationParams := { page := none, pageSize := none }

/-- Concrete fixture: default SLA windows (2 VIP hours, 24 normal hours). -/
def defaultSLA : SLAConfig := { slaVipHours := 2, slaNormalHours := 24 }

/-- Concrete fixture: a pagination envelope. -/
def mkPagInfo (page pageSize totalItems totalPages : Nat) (hasNext hasPrev : Bool) :
    PaginationInfo :=
  { page := page, pageSize := pageSize, totalItems := totalItems, totalPages := totalPages,
    hasNextPage := hasNext, hasPreviousPage := hasPrev }

/-- Concrete fixture: a sweep aggregate. -/
def mkSweepResult (revisados escalados : Nat) (ids : List String) : SweepResult :=
  { totalRevisados := revisados, totalEscalados := escalados, ticketsEscalados := ids }

/-- Spec-side view (claim C4): ids of the scanned (non-deleted ABIERTO or
EN_PROGRESO) tickets whose elapsed time strictly exceeds their client's
SLA window. -/
def specSweepEscalatedIds (cfg : SLAConfig) (db : DB) (now : Int) : List String :=
  ((db.tickets.filter sweepSelecciona).filter (excedeSLA cfg db.clientes now)).map Ticket.id

/-- Spec-side view (claim C4): the store after a failure-free sweep —
exactly the breaching scanned rows set to ESCALADO with the level advanced
(NIVEL_1 to NIVEL_2, otherwise NIVEL_3), everything else untouched. -/
def specSweepTickets (cfg : SLAConfig) (db : DB) (now : Int) : List Ticket :=
  db.tickets.map (fun u =>
    if u.id ∈ specSweepEscalatedIds cfg db now then escaladoRow u.nivelEscalamiento u else u)

/-- Reduction of an Except bind on a success value. -/
@[simp]
theorem exceptBindOk {ε α β : Type} (a : α) (f : α → Except ε β) :
    (Except.ok a >>= f : Except ε β) = f a := rfl

/-- Reduction of an Except bind on an error value. -/
@[simp]
theorem exceptBindError {ε α β : Type} (e : ε) (f : α → Except ε β) :
    (Except.error e >>= f : Except ε β) = Except.error e := rfl

/-- Reduction of pure in the Except monad. -/
@[simp]
theorem exceptPure {ε α : Type} (a : α) : (pure a : Except ε α) = Except.ok a := rfl

/-- Shape of a successful updateTicket call: when the fetched ticket is
visible, any patched status passes the transition table, and any truthy
patched agent id passes the agent checks, the call returns the store with
the single patched row and the patched ticket itself. -/
theorem updateTicket_ok_shape (db : DB) (ticketId : String) (data : UpdateTicketDto)
    (userId : String) (userRol : Rol) (now : Int) (ticket : Ticket)
    (hget : getTicketById db ticketId userId userRol = Except.ok ticket)
    (htrans : ∀ nuevo, data.estado = some nuevo → nuevo ∈ transicionesValidas ticket.estado)
    (hagy : ∀ aid, data.agenteAsignadoId = JsOptStr.val aid → aid ≠ "" →
      checkAgenteAsignacion db ticket aid = Except.ok ()) :
    updateTicket db ticketId data userId userRol now
      = Except.ok (updateTicketResult db ticketId data ticket now) := by
  cases hdata : data.estado with
  | none =>
    cases hag : data.agenteAsignadoId with
    | undef => simp [updateTicket, hget, hdata, hag]
    | null => simp [updateTicket, hget, hdata, hag]
    | val aid =>
      by_cases hne : aid = ""
      · subst hne
        simp [updateTicket, hget, hdata, hag]
      · simp [updateTicket, hget, hdata, hag, hne, hagy aid hag hne]
  | some nuevo =>
    have hmem := htrans nuevo hdata
    cases hag : data.agenteAsignadoId with
    | undef => simp [updateTicket, hget, hdata, hag, validateEstadoTransition, hmem]
    | null => simp [updateTicket, hget, hdata, hag, validateEstadoTransition, hmem]
    | val aid =>
      by_cases hne : aid = ""
      · subst hne
        simp [updateTicket, hget, hdata, hag, validateEstadoTransition, hmem]
      · simp [updateTicket, hget, hdata, hag, validateEstadoTransition, hmem,
          hne, hagy aid hag hne]

/-- Status stored by a successful updateTicket whose patch carries a
status: the patched value. -/
theorem applyBuild_estado (data : UpdateTicketDto) (ticket : Ticket) (now : Int)
    (nuevo : EstadoTicket) (hdata : data.estado = some nuevo) :
    (applyUpdateData (buildUpdateData data ticket now) ticket).estado = nuevo := by
  simp only [applyUpdateData, buildUpdateData]
  split <;> simp [hdata]

/-- Same fact phrased on the packaged result of the prisma write. -/
theorem updateTicketResult_estado (db : DB) (ticketId : String) (data : UpdateTicketDto)
    (ticket : Ticket) (now : Int) (nuevo : EstadoTicket) (hdata : data.estado = some nuevo) :
    (updateTicketResult db ticketId data ticket now).2.estado = nuevo := by
  simpa [updateTicketResult] using applyBuild_estado data ticket now nuevo hdata

/-- applyUpdateData never changes the primary key. -/
theorem applyUpdateData_id (d : TicketUpdateData) (t : Ticket) :
    (applyUpdateData d t).id = t.id := rfl

/-- applyUpdateData never changes the escalation level. -/
theorem applyUpdateData_nivel (d : TicketUpdateData) (t : Ticket) :
    (applyUpdateData d t).nivelEscalamiento = t.nivelEscalamiento := rfl

/-- applyUpdateData never changes deletedAt. -/
theorem applyUpdateData_deletedAt (d : TicketUpdateData) (t : Ticket) :
    (applyUpdateData d t).deletedAt = t.deletedAt := rfl

/-- An escalation row patch never changes the primary key. -/
theorem escaladoRow_id (n : NivelEscalamiento) (u : Ticket) : (escaladoRow n u).id = u.id := rfl

/-- Ids of the rows after an id-preserving row patch. -/
theorem updateRows_map_id (tickets : List Ticket) (id : String) (f : Ticket → Ticket)
    (hf : ∀ u, (f u).id = u.id) :
    (updateRows tickets id f).map Ticket.id = tickets.map Ticket.id := by
  simp only [updateRows, List.map_map]
  refine List.map_congr_left ?_
  intro u _
  by_cases h : u.id = id <;> simp [h, hf]

/-- In a store with unique ticket ids, two stored rows with the same id
are the same row. -/
theorem WF_unique {db : DB} (hwf : WF db) {x y : Ticket}
    (hx : x ∈ db.tickets) (hy : y ∈ db.tickets) (hid : x.id = y.id) : x = y :=
  List.inj_on_of_nodup_map hwf hx hy hid

/-- Inversion of a successful getTicketById: the row was found by id and is
not soft-deleted. -/
theorem getTicketById_ok_inv {db : DB} {ticketId userId : String} {userRol : Rol}
    {ticket : Ticket}
    (h : getTicketById db ticketId userId userRol = Except.ok ticket) :
    findTicketById db.tickets ticketId = some ticket ∧ ticket.deletedAt = none := by
  cases hfind : findTicketById db.tickets ticketId with
  | none => simp [getTicketById, hfind] at h
  | some t0 =>
    by_cases hdel : t0.deletedAt = none
    · have ht : t0 = ticket := by
        by_cases hrol : userRol = Rol.AGENTE
        · cases hfa : findAgenteByUsuarioId db.agentes userId with
          | none => simp [getTicketById, hfind, hdel, hrol, hfa] at h
          | some agente =>
            by_cases hown : t0.agenteAsignadoId = some agente.id
            · simpa [getTicketById, hfind, hdel, hrol, hfa, hown] using h
            · simp [getTicketById, hfind, hdel, hrol, hfa, hown] at h
        · simpa [getTicketById, hfind, hdel, hrol] using h
      subst ht
      exact ⟨rfl, hdel⟩
    · simp [getTicketById, hfind, hdel] at h

/-- A row found by findTicketById is a stored row carrying that id. -/
theorem findTicketById_mem {tickets : List Ticket} {id : String} {t : Ticket}
    (h : findTicketById tickets id = some t) : t ∈ tickets ∧ t.id = id := by
  refine ⟨List.mem_of_find?_eq_some h, ?_⟩
  have := List.find?_some h
  simpa using this

/-- Inversion of a successful createTicket: the store got exactly one new
row, initialized as the source initializes it. -/
theorem createTicket_ok_inv {db : DB} {data : CreateTicketDto} {newId : String} {now : Int}
    {db2 : DB} {t : Ticket}
    (h : createTicket db data newId now = Except.ok (db2, t)) :
    db2.clientes = db.clientes ∧ db2.agentes = db.agentes ∧
    db2.tickets = db.tickets ++ [t] ∧
    t.id = newId ∧ t.estado = EstadoTicket.ABIERTO ∧
    t.nivelEscalamiento = NivelEscalamiento.NIVEL_1 ∧
    t.fechaResolucion = none ∧ t.tiempoResolucion = none ∧ t.deletedAt = none := by
  cases hcli : findClienteById db.clientes data.clienteId with
  | none => simp [createTicket, hcli] at h
  | some c =>
    cases hdata : data.agenteAsignadoId with
    | none =>
      simp [createTicket, hcli, hdata] at h
      obtain ⟨hdb, ht⟩ := h
      subst ht
      simp [← hdb]
    | some aid =>
      by_cases hne : aid = ""
      · subst hne
        simp [createTicket, hcli, hdata] at h
        obtain ⟨hdb, ht⟩ := h
        subst ht
        simp [← hdb]
      · cases hfa : findAgenteById db.agentes aid with
        | none => simp [createTicket, hcli, hdata, hne, hfa] at h
        | some ag =>
          cases hact : ag.activo with
          | false => simp [createTicket, hcli, hdata, hne, hfa, hact] at h
          | true =>
            simp [createTicket, hcli, hdata, hne, hfa, hact] at h
            obtain ⟨hdb, ht⟩ := h
            subst ht
            simp [← hdb]

/-- Inversion of a successful updateTicket: some visible ticket was
fetched, any patched status is a listed transition for it, and the result
is the packaged single-row write. -/
theorem updateTicket_ok_inv {db : DB} {ticketId : String} {data : UpdateTicketDto}
    {userId : String} {userRol : Rol} {now : Int} {db2 : DB} {t2 : Ticket}
    (h : updateTicket db ticketId data userId userRol now = Except.ok (db2, t2)) :
    ∃ ticket, getTicketById db ticketId userId userRol = Except.ok ticket ∧
      db2 = (updateTicketResult db ticketId data ticket now).1 ∧
      t2 = (updateTicketResult db ticketId data ticket now).2 ∧
      (∀ nuevo, data.estado = some nuevo → nuevo ∈ transicionesValidas ticket.estado) := by
  cases hget : getTicketById db ticketId userId userRol with
  | error e => simp [updateTicket, hget] at h
  | ok ticket =>
    have htrans : ∀ nuevo, data.estado = some nuevo →
        nuevo ∈ transicionesValidas ticket.estado := by
      intro nuevo hdata
      by_contra hnot
      simp [updateTicket, hget, hdata, validateEstadoTransition, hnot] at h
    have hagy : ∀ aid, data.agenteAsignadoId = JsOptStr.val aid → aid ≠ "" →
        checkAgenteAsignacion db ticket aid = Except.ok () := by
      intro aid hag hne
      cases hcheck : checkAgenteAsignacion db ticket aid with
      | ok u => cases u; rfl
      | error e =>
        cases hdata : data.estado with
        | none => simp [updateTicket, hget, hdata, hag, hne, hcheck] at h
        | some nuevo =>
          have hmem := htrans nuevo hdata
          simp [updateTicket, hget, hdata, validateEstadoTransition, hmem,
            hag, hne, hcheck] at h
    have hok := updateTicket_ok_shape db ticketId data userId userRol now ticket hget
      htrans hagy
    rw [hok] at h
    have hres := congrArg (fun x => match x with
      | Except.ok v => v
      | Except.error _ => (db2, t2)) h
    simp at hres
    exact ⟨ticket, rfl, (congrArg Prod.fst hres).symm, (congrArg Prod.snd hres).symm, htrans⟩

/-- Inversion of a successful deleteTicket: some visible ticket was
fetched and the store got exactly one row patched with deletedAt. -/
theorem deleteTicket_ok_inv {db : DB} {ticketId userId : String} {userRol : Rol} {now : Int}
    {db2 : DB}
    (h : deleteTicket db ticketId userId userRol now = Except.ok db2) :
    ∃ ticket, getTicketById db ticketId userId userRol = Except.ok ticket ∧
      db2.clientes = db.clientes ∧ db2.agentes = db.agentes ∧
      db2.tickets = updateRows db.tickets ticketId (fun u => { u with deletedAt := some now }) := by
  cases hget : getTicketById db ticketId userId userRol with
  | error e => simp [deleteTicket, hget] at h
  | ok ticket =>
    simp [deleteTicket, hget] at h
    exact ⟨ticket, rfl, by simp [← h], by simp [← h], by simp [← h]⟩

/-- C9: createTicket fails with NotFound when the client id does not
resolve, or when a given (truthy) agent id does not resolve to an active
agent; on success the new ticket has priority ALTA for a VIP client and
MEDIA otherwise (the DTO carries no priority field, so the caller cannot
supply one), estado ABIERTO, nivel NIVEL_1, null resolution fields and
null deletedAt. -/
theorem c9_createTicket_spec :
    (∀ (db : DB) (data : CreateTicketDto) (newId : String) (now : Int),
      findClienteById db.clientes data.clienteId = none →
      createTicket db data newId now = Except.error (AppError.NotFound "Cliente no encontrado"))
    ∧
    (∀ (db : DB) (data : CreateTicketDto) (newId : String) (now : Int) (c : Cliente) (aid : String),
      findClienteById db.clientes data.clienteId = some c →
      data.agenteAsignadoId = some aid → aid ≠ "" →
      (∀ ag, findAgenteById db.agentes aid = some ag → ag.activo = false) →
      createTicket db data newId now
        = Except.error (AppError.NotFound "Agente no encontrado o inactivo"))
    ∧
    (∀ (db : DB) (data : CreateTicketDto) (newId : String) (now : Int) (db2 : DB) (t : Ticket),
      createTicket db data newId now = Except.ok (db2, t) →
      ∃ c, findClienteById db.clientes data.clienteId = some c ∧
        t.prioridad = (if c.tipo = TipoCliente.VIP then Prioridad.ALTA else Prioridad.MEDIA) ∧
        t.estado = EstadoTicket.ABIERTO ∧
        t.nivelEscalamiento = NivelEscalamiento.NIVEL_1 ∧
        t.fechaResolucion = none ∧ t.tiempoResolucion = none ∧ t.deletedAt = none) := by
  refine ⟨?_, ?_, ?_⟩
  · intro db data newId now h
    simp [createTicket, h]
  · intro db data newId now c aid hcli hdata hne hag
    cases hfa : findAgenteById db.agentes aid with
    | none => simp [createTicket, hcli, hdata, hne, hfa]
    | some ag =>
      have hact := hag ag hfa
      simp [createTicket, hcli, hdata, hne, hfa, hact]
  · intro db data newId now db2 t h
    cases hcli : findClienteById db.clientes data.clienteId with
    | none => simp [createTicket, hcli] at h
    | some c =>
      refine ⟨c, rfl, ?_⟩
      cases hdata : data.agenteAsignadoId with
      | none =>
        simp [createTicket, hcli, hdata] at h
        obtain ⟨-, ht⟩ := h
        subst ht
        simp
      | some aid =>
        by_cases hne : aid = ""
        · subst hne
          simp [createTicket, hcli, hdata] at h
          obtain ⟨-, ht⟩ := h
          subst ht
          simp
        · cases hfa : findAgenteById db.agentes aid with
          | none => simp [createTicket, hcli, hdata, hne, hfa] at h
          | some ag =>
            cases hact : ag.activo with
            | false => simp [createTicket, hcli, hdata, hne, hfa, hact] at h
            | true =>
              simp [createTicket, hcli, hdata, hne, hfa, hact] at h
              obtain ⟨-, ht⟩ := h
              subst ht
              simp

/-- Witness for c9_createTicket_spec at concrete inputs. -/
theorem c9_createTicket_spec_witness :
    createTicket { clientes := [], agentes := [], tickets := [] }
        { titulo := "ttt", descripcion := "ddddd", clienteId := "c1", agenteAsignadoId := none }
        "t9" 0
      = Except.error (AppError.NotFound "Cliente no encontrado") :=
  c9_createTicket_spec.1 { clientes := [], agentes := [], tickets := [] }
    { titulo := "ttt", descripcion := "ddddd", clienteId := "c1", agenteAsignadoId := none }
    "t9" 0 (by decide)

/-- C3: for a ticket visible to the actor, a patched status is accepted
exactly when the pair (current, requested) is in the transition table
(whose pairs are spelled out), an unlisted pair fails with a Validation
error naming the current and requested status, and in that case the store
is left unchanged. The acceptance direction is stated for a patch whose
agent field is not truthy, so that no independent agent check interferes. -/
theorem c3_estado_transition_spec :
    (∀ a b : EstadoTicket, b ∈ transicionesValidas a ↔
      (a, b) ∈ [(EstadoTicket.ABIERTO, EstadoTicket.EN_PROGRESO),
                (EstadoTicket.ABIERTO, EstadoTicket.ESCALADO),
                (EstadoTicket.EN_PROGRESO, EstadoTicket.RESUELTO),
                (EstadoTicket.EN_PROGRESO, EstadoTicket.ESCALADO),
                (EstadoTicket.ESCALADO, EstadoTicket.EN_PROGRESO),
                (EstadoTicket.ESCALADO, EstadoTicket.RESUELTO),
                (EstadoTicket.RESUELTO, EstadoTicket.CERRADO)])
    ∧
    (∀ (db : DB) (ticketId : String) (data : UpdateTicketDto) (userId : String)
        (userRol : Rol) (now : Int) (ticket : Ticket) (nuevo : EstadoTicket),
      getTicketById db ticketId userId userRol = Except.ok ticket →
      data.estado = some nuevo →
      nuevo ∉ transicionesValidas ticket.estado →
      updateTicket db ticketId data userId userRol now
          = Except.error (AppError.Validation (transitionErrorMsg ticket.estado nuevo))
        ∧ updateTicketStore db ticketId data userId userRol now = db)
    ∧
    (∀ (db : DB) (ticketId : String) (data : UpdateTicketDto) (userId : String)
        (userRol : Rol) (now : Int) (ticket : Ticket) (nuevo : EstadoTicket),
      getTicketById db ticketId userId userRol = Except.ok ticket →
      data.estado = some nuevo →
      nuevo ∈ transicionesValidas ticket.estado →
      jsOptStrTruthy data.agenteAsignadoId = false →
      ∃ (db2 : DB) (t2 : Ticket),
        updateTicket db ticketId data userId userRol now = Except.ok (db2, t2)
          ∧ t2.estado = nuevo) := by
  refine ⟨fun a b => by cases a <;> cases b <;> decide, ?_, ?_⟩
  · intro db ticketId data userId userRol now ticket nuevo hget hdata hnot
    have herr : updateTicket db ticketId data userId userRol now
        = Except.error (AppError.Validation (transitionErrorMsg ticket.estado nuevo)) := by
      simp [updateTicket, hget, hdata, validateEstadoTransition, hnot]
    exact ⟨herr, by simp [updateTicketStore, herr]⟩
  · intro db ticketId data userId userRol now ticket nuevo hget hdata hmem htruthy
    have hagy : ∀ aid, data.agenteAsignadoId = JsOptStr.val aid → aid ≠ "" →
        checkAgenteAsignacion db ticket aid = Except.ok () := by
      intro aid hag hne
      rw [hag] at htruthy
      simp [jsOptStrTruthy] at htruthy
      exact absurd htruthy hne
    have htrans : ∀ n, data.estado = some n → n ∈ transicionesValidas ticket.estado := by
      intro n hn
      rw [hdata] at hn
      cases hn
      exact hmem
    exact ⟨_, _, updateTicket_ok_shape db ticketId data userId userRol now ticket hget
      htrans hagy, updateTicketResult_estado db ticketId data ticket now nuevo hdata⟩

/-- Witness for c3_estado_transition_spec at concrete inputs: a CERRADO
ticket rejects a patch to ABIERTO with the naming Validation error, and an
EN_PROGRESO ticket accepts a patch to RESUELTO. -/
theorem c3_estado_transition_spec_witness :
    (updateTicket (mkDB [] [] [{ ticketBase with estado := EstadoTicket.CERRADO }]) "t1"
        (patchEstado EstadoTicket.ABIERTO) "u" Rol.ADMIN 7
      = Except.error (AppError.Validation "No se puede cambiar de CERRADO a ABIERTO"))
    ∧
    (∃ (db2 : DB) (t2 : Ticket),
      updateTicket (mkDB [] [] [{ ticketBase with estado := EstadoTicket.EN_PROGRESO }]) "t1"
          (patchEstado EstadoTicket.RESUELTO) "u" Rol.ADMIN 7
        = Except.ok (db2, t2) ∧ t2.estado = EstadoTicket.RESUELTO) :=
  ⟨(c3_estado_transition_spec.2.1 _ "t1" _ "u" Rol.ADMIN 7
      { ticketBase with estado := EstadoTicket.CERRADO }
      EstadoTicket.ABIERTO (by decide) rfl (by decide)).1,
   c3_estado_transition_spec.2.2 _ "t1" _ "u" Rol.ADMIN 7
      { ticketBase with estado := EstadoTicket.EN_PROGRESO }
      EstadoTicket.RESUELTO (by decide) rfl (by decide) rfl⟩

/-- Outcome of the agent checks on an ESCALADO ticket for a found, active
agent: Forbidden (with the message chosen by the ticket's level) below the
ticket's level, ok at or above it. -/
theorem checkAgente_escalado (db : DB) (ticket : Ticket) (aid : String) (ag : Agente)
    (hfa : findAgenteById db.agentes aid = some ag) (hact : ag.activo = true)
    (hesc : ticket.estado = EstadoTicket.ESCALADO) :
    checkAgenteAsignacion db ticket aid
      = (if nivelToNat ag.nivel < nivelToNat ticket.nivelEscalamiento then
           Except.error (AppError.Forbidden
             (if ticket.nivelEscalamiento = NivelEscalamiento.NIVEL_2 then
               "Agentes de nivel 1 no pueden atender tickets escalados a nivel 2"
              else "Solo agentes de nivel 3 pueden atender tickets escalados a nivel 3"))
         else Except.ok ()) := by
  cases hn : ticket.nivelEscalamiento <;> cases hm : ag.nivel <;>
    simp [checkAgenteAsignacion, hfa, hact, hesc, hn, hm, nivelToNat]

/-- Propagation of a failed agent check through updateTicket when the
patch carries no status. -/
theorem updateTicket_agent_error (db : DB) (ticketId : String) (data : UpdateTicketDto)
    (userId : String) (userRol : Rol) (now : Int) (ticket : Ticket) (aid : String)
    (e : AppError)
    (hget : getTicketById db ticketId userId userRol = Except.ok ticket)
    (hdata : data.estado = none)
    (hag : data.agenteAsignadoId = JsOptStr.val aid) (hne : aid ≠ "")
    (hcheck : checkAgenteAsignacion db ticket aid = Except.error e) :
    updateTicket db ticketId data userId userRol now = Except.error e := by
  simp [updateTicket, hget, hdata, hag, hne, hcheck]

/-- Agent id stored by a successful updateTicket whose patch carries a
truthy agent id. -/
theorem updateTicketResult_agente (db : DB) (ticketId : String) (data : UpdateTicketDto)
    (ticket : Ticket) (now : Int) (aid : String)
    (hag : data.agenteAsignadoId = JsOptStr.val aid) :
    (updateTicketResult db ticketId data ticket now).2.agenteAsignadoId = some aid := by
  simp only [updateTicketResult, applyUpdateData, buildUpdateData]
  split <;> simp [hag, jsOptStrToData]

/-- C6: for a visible ticket whose current status is ESCALADO and a patch
that assigns a (truthy) agent and no status, a missing or inactive agent
fails with NotFound; a found active agent below the ticket's escalation
level fails with Forbidden; and a found active agent at or above the
ticket's escalation level is assigned. -/
theorem c6_escalado_tier_eligibility :
    (∀ (db : DB) (ticketId : String) (data : UpdateTicketDto) (userId : String)
        (userRol : Rol) (now : Int) (ticket : Ticket) (aid : String),
      getTicketById db ticketId userId userRol = Except.ok ticket →
      data.estado = none → data.agenteAsignadoId = JsOptStr.val aid → aid ≠ "" →
      (∀ ag, findAgenteById db.agentes aid = some ag → ag.activo = false) →
      updateTicket db ticketId data userId userRol now
        = Except.error (AppError.NotFound "Agente no encontrado o inactivo"))
    ∧
    (∀ (db : DB) (ticketId : String) (data : UpdateTicketDto) (userId : String)
        (userRol : Rol) (now : Int) (ticket : Ticket) (aid : String) (ag : Agente),
      getTicketById db ticketId userId userRol = Except.ok ticket →
      data.estado = none → data.agenteAsignadoId = JsOptStr.val aid → aid ≠ "" →
      findAgenteById db.agentes aid = some ag → ag.activo = true →
      ticket.estado = EstadoTicket.ESCALADO →
      ((nivelToNat ag.nivel < nivelToNat ticket.nivelEscalamiento →
        updateTicket db ticketId data userId userRol now
          = Except.error (AppError.Forbidden
              (if ticket.nivelEscalamiento = NivelEscalamiento.NIVEL_2 then
                "Agentes de nivel 1 no pueden atender tickets escalados a nivel 2"
               else "Solo agentes de nivel 3 pueden atender tickets escalados a nivel 3")))
       ∧
       (nivelToNat ticket.nivelEscalamiento ≤ nivelToNat ag.nivel →
        ∃ (db2 : DB) (t2 : Ticket),
          updateTicket db ticketId data userId userRol now = Except.ok (db2, t2)
            ∧ t2.agenteAsignadoId = some aid))) := by
  constructor
  · intro db ticketId data userId userRol now ticket aid hget hdata hag hne hbad
    have hcheck : checkAgenteAsignacion db ticket aid
        = Except.error (AppError.NotFound "Agente no encontrado o inactivo") := by
      cases hfa : findAgenteById db.agentes aid with
      | none => simp [checkAgenteAsignacion, hfa]
      | some ag => simp [checkAgenteAsignacion, hfa, hbad ag hfa]
    exact updateTicket_agent_error db ticketId data userId userRol now ticket aid _
      hget hdata hag hne hcheck
  · intro db ticketId data userId userRol now ticket aid ag hget hdata hag hne hfa hact hesc
    constructor
    · intro hlt
      have hcheck := checkAgente_escalado db ticket aid ag hfa hact hesc
      rw [if_pos hlt] at hcheck
      exact updateTicket_agent_error db ticketId data userId userRol now ticket aid _
        hget hdata hag hne hcheck
    · intro hge
      have hcheck := checkAgente_escalado db ticket aid ag hfa hact hesc
      rw [if_neg (by omega)] at hcheck
      have hagy : ∀ a, data.agenteAsignadoId = JsOptStr.val a → a ≠ "" →
          checkAgenteAsignacion db ticket a = Except.ok () := by
        intro a ha _
        rw [hag] at ha
        cases ha
        exact hcheck
      have htrans : ∀ n, data.estado = some n → n ∈ transicionesValidas ticket.estado := by
        intro n hn
        rw [hdata] at hn
        cases hn
      exact ⟨_, _, updateTicket_ok_shape db ticketId data userId userRol now ticket hget
        htrans hagy, updateTicketResult_agente db ticketId data ticket now aid hag⟩

/-- Witness for c6_escalado_tier_eligibility: a TIER_1 active agent on an
ESCALADO NIVEL_2 ticket is rejected with Forbidden, and a TIER_2 active
agent on the same ticket is assigned. -/
theorem c6_escalado_tier_eligibility_witness :
    (updateTicket
        (mkDB [] [mkAgente "a1" "u1" NivelEscalamiento.NIVEL_1 true]
          [{ ticketBase with estado := EstadoTicket.ESCALADO, nivelEscalamiento := NivelEscalamiento.NIVEL_2 }])
        "t1" { patchNone with agenteAsignadoId := JsOptStr.val "a1" } "u" Rol.ADMIN 9
      = Except.error (AppError.Forbidden
          "Agentes de nivel 1 no pueden atender tickets escalados a nivel 2"))
    ∧
    (∃ (db2 : DB) (t2 : Ticket),
      updateTicket
        (mkDB [] [mkAgente "a2" "u2" NivelEscalamiento.NIVEL_2 true]
          [{ ticketBase with estado := EstadoTicket.ESCALADO, nivelEscalamiento := NivelEscalamiento.NIVEL_2 }])
        "t1" { patchNone with agenteAsignadoId := JsOptStr.val "a2" } "u" Rol.ADMIN 9
        = Except.ok (db2, t2) ∧ t2.agenteAsignadoId = some "a2") := by
  constructor
  · have h := (c6_escalado_tier_eligibility.2
      (mkDB [] [mkAgente "a1" "u1" NivelEscalamiento.NIVEL_1 true]
        [{ ticketBase with estado := EstadoTicket.ESCALADO, nivelEscalamiento := NivelEscalamiento.NIVEL_2 }])
      "t1" { patchNone with agenteAsignadoId := JsOptStr.val "a1" } "u" Rol.ADMIN 9
      { ticketBase with estado := EstadoTicket.ESCALADO, nivelEscalamiento := NivelEscalamiento.NIVEL_2 }
      "a1" (mkAgente "a1" "u1" NivelEscalamiento.NIVEL_1 true)
      (by decide) rfl rfl (by decide) (by decide) rfl rfl).1 (by decide)
    simpa using h
  · exact (c6_escalado_tier_eligibility.2
      (mkDB [] [mkAgente "a2" "u2" NivelEscalamiento.NIVEL_2 true]
        [{ ticketBase with estado := EstadoTicket.ESCALADO, nivelEscalamiento := NivelEscalamiento.NIVEL_2 }])
      "t1" { patchNone with agenteAsignadoId := JsOptStr.val "a2" } "u" Rol.ADMIN 9
      { ticketBase with estado := EstadoTicket.ESCALADO, nivelEscalamiento := NivelEscalamiento.NIVEL_2 }
      "a2" (mkAgente "a2" "u2" NivelEscalamiento.NIVEL_2 true)
      (by decide) rfl rfl (by decide) (by decide) rfl rfl).2 (by decide)

/-- Agent id stored by updateTicket when the patch carries an explicit
null: cleared, whatever row the patch is applied to. -/
theorem applyBuild_agente_null (data : UpdateTicketDto) (ticket z : Ticket) (now : Int)
    (hag : data.agenteAsignadoId = JsOptStr.null) :
    (applyUpdateData (buildUpdateData data ticket now) z).agenteAsignadoId = none := by
  simp only [applyUpdateData, buildUpdateData]
  split <;> simp [hag, jsOptStrToData]

/-- C10: an updateTicket patch that sets agenteAsignadoId to an explicit
null (with no status patched) passes the upstream validateUpdateTicket when
another truthy field is present, succeeds with no agent lookup hypothesis of
any kind — in particular on an ESCALADO ticket of any escalation level and
with any (even empty) agent table — and clears the stored assignment. -/
theorem c10_null_agente_clears_assignment :
    (∀ s : String, isValidString (JsOptStr.val s) 3 200 = true →
      validateUpdateTicketBody
        { titulo := JsOptStr.val s, descripcion := JsOptStr.undef,
          estado := JsOptStr.undef, agenteAsignadoId := JsOptStr.null }
        = Except.ok ())
    ∧
    (∀ (db : DB) (ticketId : String) (data : UpdateTicketDto) (userId : String)
        (userRol : Rol) (now : Int) (ticket : Ticket),
      getTicketById db ticketId userId userRol = Except.ok ticket →
      data.estado = none → data.agenteAsignadoId = JsOptStr.null →
      ∃ (db2 : DB) (t2 : Ticket),
        updateTicket db ticketId data userId userRol now = Except.ok (db2, t2)
          ∧ t2.agenteAsignadoId = none
          ∧ ∀ u ∈ db2.tickets, u.id = ticketId → u.agenteAsignadoId = none) := by
  constructor
  · intro s hvalid
    have hne : s ≠ "" := by
      intro hs
      subst hs
      simp [isValidString, trimLength] at hvalid
    simp [validateUpdateTicketBody, jsOptStrTruthy, jsDefined, hne, hvalid]
  · intro db ticketId data userId userRol now ticket hget hdata hag
    have htrans : ∀ n, data.estado = some n → n ∈ transicionesValidas ticket.estado := by
      intro n hn
      rw [hdata] at hn
      cases hn
    have hagy : ∀ a, data.agenteAsignadoId = JsOptStr.val a → a ≠ "" →
        checkAgenteAsignacion db ticket a = Except.ok () := by
      intro a ha
      rw [hag] at ha
      cases ha
    refine ⟨_, _, updateTicket_ok_shape db ticketId data userId userRol now ticket hget
      htrans hagy, ?_, ?_⟩
    · exact applyBuild_agente_null data ticket ticket now hag
    · intro u hu huid
      simp only [updateTicketResult, updateRows, List.mem_map] at hu
      obtain ⟨z, -, hz⟩ := hu
      by_cases hzid : z.id = ticketId
      · rw [if_pos hzid] at hz
        rw [← hz]
        exact applyBuild_agente_null data ticket z now hag
      · rw [if_neg hzid] at hz
        rw [← hz] at huid
        exact absurd huid hzid

/-- Witness for c10_null_agente_clears_assignment: the body passes
validation, and on an ESCALADO NIVEL_3 ticket with an empty agent table the
patch clears the assignment. -/
theorem c10_null_agente_clears_assignment_witness :
    (validateUpdateTicketBody
        { titulo := JsOptStr.val "nuevo titulo", descripcion := JsOptStr.undef,
          estado := JsOptStr.undef, agenteAsignadoId := JsOptStr.null }
      = Except.ok ())
    ∧
    (∃ (db2 : DB) (t2 : Ticket),
      updateTicket
        (mkDB [] []
          [{ ticketBase with agenteAsignadoId := some "a9", estado := EstadoTicket.ESCALADO, nivelEscalamiento := NivelEscalamiento.NIVEL_3 }])
        "t1" { titulo := some "nuevo titulo", descripcion := none, estado := none, agenteAsignadoId := JsOptStr.null }
        "u" Rol.ADMIN 9
      = Except.ok (db2, t2) ∧ t2.agenteAsignadoId = none
        ∧ ∀ u ∈ db2.tickets, u.id = "t1" → u.agenteAsignadoId = none) :=
  ⟨c10_null_agente_clears_assignment.1 "nuevo titulo" (by decide),
   c10_null_agente_clears_assignment.2
    (mkDB [] []
      [{ ticketBase with agenteAsignadoId := some "a9", estado := EstadoTicket.ESCALADO, nivelEscalamiento := NivelEscalamiento.NIVEL_3 }])
    "t1" { titulo := some "nuevo titulo", descripcion := none, estado := none, agenteAsignadoId := JsOptStr.null }
    "u" Rol.ADMIN 9
    { ticketBase with agenteAsignadoId := some "a9", estado := EstadoTicket.ESCALADO, nivelEscalamiento := NivelEscalamiento.NIVEL_3 }
    (by decide) rfl rfl⟩

/-- Membership in one insertion step of the descending sort. -/
theorem mem_insertDesc {t x : Ticket} {l : List Ticket} :
    x ∈ insertDesc t l ↔ x = t ∨ x ∈ l := by
  induction l with
  | nil => simp [insertDesc]
  | cons u us ih =>
    simp only [insertDesc]
    split
    · simp [List.mem_cons]
    · simp only [List.mem_cons, ih]
      tauto

/-- The descending sort permutes its input: membership is unchanged. -/
theorem mem_sortByFechaDesc {x : Ticket} {l : List Ticket} :
    x ∈ sortByFechaDesc l ↔ x ∈ l := by
  induction l with
  | nil => simp [sortByFechaDesc]
  | cons t ts ih => simp [sortByFechaDesc, mem_insertDesc, ih]

/-- Lookup by id after an id-preserving single-row patch: the found row is
the patched one. -/
theorem findTicketById_updateRows (tickets : List Ticket) (id : String) (f : Ticket → Ticket)
    (hf : ∀ u, (f u).id = u.id) :
    findTicketById (updateRows tickets id f) id
      = Option.map (fun z => if z.id = id then f z else z) (findTicketById tickets id) := by
  have hpg : ((fun t : Ticket => decide (t.id = id)) ∘ (fun u => if u.id = id then f u else u))
      = (fun t : Ticket => decide (t.id = id)) := by
    funext z
    by_cases h : z.id = id <;> simp [h, hf]
  simp [findTicketById, updateRows, List.find?_map, hpg]

/-- Data slice returned by a successful getTickets: a take of a drop of the
descending sort of the rows matching some where object. -/
theorem getTickets_ok_inv {db : DB} {filters : TicketFilters} {pagination : PaginationParams}
    {userId : String} {userRol : Rol} {page : TicketPage}
    (h : getTickets db filters pagination userId userRol = Except.ok page) :
    ∃ w : TicketWhere,
      page.data = ((sortByFechaDesc (db.tickets.filter (fun t => ticketMatchesWhere w t))).drop
        ((jsOrNat pagination.page 1 - 1) * min (jsOrNat pagination.pageSize 10) 100)).take
          (min (jsOrNat pagination.pageSize 10) 100) := by
  by_cases hrol : userRol = Rol.AGENTE
  · cases hfa : findAgenteByUsuarioId db.agentes userId with
    | none => simp [getTickets, hrol, hfa] at h
    | some agente =>
      simp only [getTickets, hrol, if_pos, hfa] at h
      exact ⟨_, (congrArg TicketPage.data (Except.ok.inj h)).symm⟩
  · simp only [getTickets, hrol, if_neg, if_false] at h
    exact ⟨_, (congrArg TicketPage.data (Except.ok.inj h)).symm⟩

/-- A row matching any where object is not soft-deleted (the base predicate
deletedAt null is part of every where object getTickets builds). -/
theorem ticketMatchesWhere_deletedAt {w : TicketWhere} {t : Ticket}
    (h : ticketMatchesWhere w t = true) : t.deletedAt = none := by
  simp only [ticketMatchesWhere, Bool.and_eq_true, decide_eq_true_eq] at h
  exact h.1.1.1.1.1.1

/-- C7: a soft-deleted ticket is invisible: getTicketById on it fails with
NotFound for every actor, no getTickets result ever contains a soft-deleted
row, a second deleteTicket on it fails with NotFound for every actor, and
deleteTicket itself keeps every row, changing nothing but deletedAt of the
deleted row. -/
theorem c7_soft_delete_invisible :
    (∀ (db : DB) (ticketId userId : String) (userRol : Rol) (t : Ticket),
      findTicketById db.tickets ticketId = some t → t.deletedAt ≠ none →
      getTicketById db ticketId userId userRol
        = Except.error (AppError.NotFound "Ticket no encontrado"))
    ∧
    (∀ (db : DB) (filters : TicketFilters) (pagination : PaginationParams)
        (userId : String) (userRol : Rol) (page : TicketPage),
      getTickets db filters pagination userId userRol = Except.ok page →
      ∀ t ∈ page.data, t.deletedAt = none)
    ∧
    (∀ (db : DB) (ticketId userId : String) (userRol : Rol) (now : Int) (db2 : DB),
      deleteTicket db ticketId userId userRol now = Except.ok db2 →
      (∀ (userId2 : String) (userRol2 : Rol) (now2 : Int),
        deleteTicket db2 ticketId userId2 userRol2 now2
          = Except.error (AppError.NotFound "Ticket no encontrado"))
      ∧ db2.tickets.length = db.tickets.length
      ∧ ∀ i (hi : i < db.tickets.length), ∃ hi2 : i < db2.tickets.length,
          db2.tickets.get ⟨i, hi2⟩ = db.tickets.get ⟨i, hi⟩
          ∨ db2.tickets.get ⟨i, hi2⟩
            = { db.tickets.get ⟨i, hi⟩ with deletedAt := some now }) := by
  refine ⟨?_, ?_, ?_⟩
  · intro db ticketId userId userRol t hfind hdel
    simp [getTicketById, hfind, hdel]
  · intro db filters pagination userId userRol page h t ht
    obtain ⟨w, hw⟩ := getTickets_ok_inv h
    rw [hw] at ht
    have h1 := List.take_subset _ _ ht
    have h2 := List.drop_subset _ _ h1
    have h3 := mem_sortByFechaDesc.mp h2
    exact ticketMatchesWhere_deletedAt (List.mem_filter.mp h3).2
  · intro db ticketId userId userRol now db2 h
    obtain ⟨ticket, hget, hcli, hag, htick⟩ := deleteTicket_ok_inv h
    obtain ⟨hfind, hdel⟩ := getTicketById_ok_inv hget
    obtain ⟨hmem, hid⟩ := findTicketById_mem hfind
    have hfind2 : findTicketById db2.tickets ticketId
        = some { ticket with deletedAt := some now } := by
      rw [htick, findTicketById_updateRows db.tickets ticketId
        (fun u => { u with deletedAt := some now }) (fun u => rfl), hfind]
      simp [hid]
    refine ⟨?_, ?_, ?_⟩
    · intro userId2 userRol2 now2
      have hget2 : getTicketById db2 ticketId userId2 userRol2
          = Except.error (AppError.NotFound "Ticket no encontrado") := by
        simp [getTicketById, hfind2]
      simp [deleteTicket, hget2]
    · rw [htick]
      simp [updateRows]
    · intro i hi
      have hi2 : i < db2.tickets.length := by
        rw [htick]
        simpa [updateRows] using hi
      refine ⟨hi2, ?_⟩
      have hrow : db2.tickets.get ⟨i, hi2⟩
          = (if (db.tickets.get ⟨i, hi⟩).id = ticketId
              then { db.tickets.get ⟨i, hi⟩ with deletedAt := some now }
              else db.tickets.get ⟨i, hi⟩) := by
        have := htick
        revert hi2
        rw [this]
        intro hi2
        simp [updateRows]
      by_cases hcase : (db.tickets.get ⟨i, hi⟩).id = ticketId
      · right
        rw [hrow, if_pos hcase]
      · left
        rw [hrow, if_neg hcase]

/-- Witness for c7_soft_delete_invisible at concrete inputs. -/
theorem c7_soft_delete_invisible_witness :
    (getTicketById (mkDB [] [] [{ ticketBase with deletedAt := some 5 }]) "t1" "u" Rol.ADMIN
      = Except.error (AppError.NotFound "Ticket no encontrado"))
    ∧
    (∀ t ∈ ([] : List Ticket), t.deletedAt = none)
    ∧
    (deleteTicket (mkDB [] [] [{ ticketBase with deletedAt := some 9 }]) "t1" "u2" Rol.ADMIN 11
      = Except.error (AppError.NotFound "Ticket no encontrado")) := by
  have hdel1 : deleteTicket (mkDB [] [] [ticketBase]) "t1" "u" Rol.ADMIN 9
      = Except.ok (mkDB [] [] [{ ticketBase with deletedAt := some 9 }]) := by decide
  refine ⟨?_, ?_, ?_⟩
  · exact c7_soft_delete_invisible.1 (mkDB [] [] [{ ticketBase with deletedAt := some 5 }])
      "t1" "u" Rol.ADMIN { ticketBase with deletedAt := some 5 } (by decide) (by decide)
  · have hpage : getTickets (mkDB [] [] [{ ticketBase with deletedAt := some 5 }]) noFilters
        noPagination "u" Rol.ADMIN
        = Except.ok { data := [], pagination := mkPagInfo 1 10 0 0 false false } := by decide
    intro t ht
    exact (c7_soft_delete_invisible.2.1 _ noFilters noPagination "u" Rol.ADMIN _ hpage) t ht
  · exact (c7_soft_delete_invisible.2.2 (mkDB [] [] [ticketBase]) "t1" "u" Rol.ADMIN 9
      (mkDB [] [] [{ ticketBase with deletedAt := some 9 }]) hdel1).1 "u2" Rol.ADMIN 11

/-- C1 (code bug): an AGENTE actor whose own Agent id is a1 lists tickets
with a requested agentId filter naming a2 and receives exactly the ticket
assigned to a2 — the requested filter, assigned to the where object after
the role-forced filter, overwrites it. The actor's own Agent record (id a1)
is confirmed alongside. -/
theorem c1_agent_filter_override_bug :
    (getTickets
        (mkDB []
          [mkAgente "a1" "u1" NivelEscalamiento.NIVEL_1 true,
           mkAgente "a2" "u2" NivelEscalamiento.NIVEL_1 true]
          [{ ticketBase with id := "t1", agenteAsignadoId := some "a1" },
           { ticketBase with id := "t2", agenteAsignadoId := some "a2" }])
        { noFilters with agenteAsignadoId := some "a2" }
        noPagination "u1" Rol.AGENTE).map TicketPage.data
      = Except.ok [{ ticketBase with id := "t2", agenteAsignadoId := some "a2" }]
    ∧
    findAgenteByUsuarioId
        [mkAgente "a1" "u1" NivelEscalamiento.NIVEL_1 true,
         mkAgente "a2" "u2" NivelEscalamiento.NIVEL_1 true] "u1"
      = some (mkAgente "a1" "u1" NivelEscalamiento.NIVEL_1 true) := by
  decide

/-- C2 counterexample: two qualifying, SLA-breaching tickets; the store
update of the first fails. The sweep rejects as a whole (no aggregate
result) and the second breaching ticket is left unescalated — the store
comes back exactly as it was. -/
theorem c2_sweep_failure_counterexample :
    escalarTicketsPorSLA defaultSLA
        (mkDB [mkCliente "c1" TipoCliente.NORMAL] []
          [{ ticketBase with id := "t1" }, { ticketBase with id := "t2" }])
        108000000 (fun id => id == "t1")
      = (mkDB [mkCliente "c1" TipoCliente.NORMAL] []
          [{ ticketBase with id := "t1" }, { ticketBase with id := "t2" }],
         Except.error (StoreError.updateFailed "t1"))
    ∧ sweepSelecciona { ticketBase with id := "t2" } = true
    ∧ excedeSLA defaultSLA [mkCliente "c1" TipoCliente.NORMAL] 108000000
        { ticketBase with id := "t2" } = true := by
  decide

/-- Success of the sweep loop when no remaining breaching snapshot ticket
has a failing update. -/
theorem sweepLoop_ok_nofail (cfg : SLAConfig) (cls : List Cliente) (now : Int)
    (fails : String → Bool) :
    ∀ (ts tickets : List Ticket) (acc : List String),
    (∀ t ∈ ts, excedeSLA cfg cls now t = true → fails t.id = false) →
    ∃ tickets2 acc2, sweepLoop cfg cls now fails ts tickets acc = (tickets2, Except.ok acc2) := by
  intro ts
  induction ts with
  | nil => exact fun tickets acc _ => ⟨tickets, acc, rfl⟩
  | cons t rest ih =>
    intro tickets acc h
    by_cases hex : excedeSLA cfg cls now t = true
    · have hf := h t (by simp) hex
      simp only [sweepLoop, hex, hf, if_true, if_false, Bool.false_eq_true]
      exact ih _ _ (fun u hu he => h u (by simp [hu]) he)
    · simp only [sweepLoop]
      rw [if_neg hex]
      exact ih _ _ (fun u hu he => h u (by simp [hu]) he)

/-- Abort of the sweep loop at the first breaching snapshot ticket whose
update fails: the error is returned as the loop's result and every stored
row whose id is not among the earlier snapshot ids survives untouched. -/
theorem sweepLoop_error_split (cfg : SLAConfig) (cls : List Cliente) (now : Int)
    (fails : String → Bool) (t : Ticket) (ts2 : List Ticket)
    (hex : excedeSLA cfg cls now t = true) (hf : fails t.id = true) :
    ∀ (ts1 tickets : List Ticket) (acc : List String),
    (∀ u ∈ ts1, excedeSLA cfg cls now u = true → fails u.id = false) →
    (∀ u ∈ ts1, u ∈ tickets) →
    (∀ u ∈ ts1, ∀ v ∈ tickets, v.id = u.id → v = u) →
    ((ts1 ++ t :: ts2).map Ticket.id).Nodup →
    ∃ tickets2,
      sweepLoop cfg cls now fails (ts1 ++ t :: ts2) tickets acc
        = (tickets2, Except.error (StoreError.updateFailed t.id))
      ∧ (∀ v ∈ tickets, v.id ∉ ts1.map Ticket.id → v ∈ tickets2)
      ∧ (∀ u ∈ ts1, excedeSLA cfg cls now u = true →
          escaladoRow u.nivelEscalamiento u ∈ tickets2) := by
  intro ts1
  induction ts1 with
  | nil =>
    intro tickets acc _ _ _ _
    refine ⟨tickets, ?_, fun v hv _ => hv, by simp⟩
    simp [sweepLoop, hex, hf]
  | cons u rest ih =>
    intro tickets acc h hrowmem hsnap hnodup
    simp only [List.cons_append, List.map_cons, List.nodup_cons] at hnodup
    have huid : u.id ∉ (rest ++ t :: ts2).map Ticket.id := hnodup.1
    have hurest : u.id ∉ rest.map Ticket.id := by
      intro hc
      exact huid (by rw [List.map_append]; exact List.mem_append_left _ hc)
    by_cases hexu : excedeSLA cfg cls now u = true
    · have hfu := h u (by simp) hexu
      have hrowmem' : ∀ s ∈ rest, s ∈ updateRows tickets u.id (escaladoRow u.nivelEscalamiento) := by
        intro s hs
        have hsid : s.id ≠ u.id := by
          intro hc
          exact hurest (hc ▸ List.mem_map.mpr ⟨s, hs, rfl⟩)
        simp only [updateRows, List.mem_map]
        exact ⟨s, hrowmem s (by simp [hs]), by rw [if_neg hsid]⟩
      have hsnap' : ∀ s ∈ rest,
          ∀ v ∈ updateRows tickets u.id (escaladoRow u.nivelEscalamiento),
          v.id = s.id → v = s := by
        intro s hs v hv hid
        simp only [updateRows, List.mem_map] at hv
        obtain ⟨z, hz, hzv⟩ := hv
        by_cases hzt : z.id = u.id
        · exfalso
          apply hurest
          have hvz : v.id = z.id := by
            rw [← hzv, if_pos hzt]
            rfl
          have : u.id = s.id := by rw [← hzt, ← hvz, hid]
          rw [this]
          exact List.mem_map.mpr ⟨s, hs, rfl⟩
        · rw [if_neg hzt] at hzv
          subst hzv
          exact hsnap s (by simp [hs]) z hz hid
      obtain ⟨tickets2, heq, hpres, hescprev⟩ :=
        ih (updateRows tickets u.id (escaladoRow u.nivelEscalamiento)) (acc ++ [u.id])
          (fun z hz he => h z (by simp [hz]) he) hrowmem' hsnap' hnodup.2
      refine ⟨tickets2, ?_, ?_, ?_⟩
      · simpa [sweepLoop, hexu, hfu] using heq
      · intro v hv hnot
        simp only [List.map_cons, List.mem_cons, not_or] at hnot
        refine hpres v ?_ hnot.2
        simp only [updateRows, List.mem_map]
        exact ⟨v, hv, by rw [if_neg hnot.1]⟩
      · intro w hw hexw
        rcases List.mem_cons.mp hw with hwu | hwrest
        · subst hwu
          refine hpres (escaladoRow w.nivelEscalamiento w) ?_ ?_
          · simp only [updateRows, List.mem_map]
            exact ⟨w, hrowmem w (by simp), by rw [if_pos rfl]⟩
          · have : (escaladoRow w.nivelEscalamiento w).id = w.id := rfl
            rw [this]
            exact hurest
        · exact hescprev w hwrest hexw
    · obtain ⟨tickets2, heq, hpres, hescprev⟩ :=
        ih tickets acc (fun z hz he => h z (by simp [hz]) he)
          (fun s hs => hrowmem s (by simp [hs]))
          (fun s hs => hsnap s (by simp [hs])) hnodup.2
      refine ⟨tickets2, ?_, ?_, ?_⟩
      · simp only [List.cons_append, sweepLoop]
        rw [if_neg hexu]
        exact heq
      · intro v hv hnot
        simp only [List.map_cons, List.mem_cons, not_or] at hnot
        exact hpres v hv hnot.2
      · intro w hw hexw
        rcases List.mem_cons.mp hw with hwu | hwrest
        · subst hwu
          exact absurd hexw hexu
        · exact hescprev w hwrest hexw

/-- C2 amended: the sweep returns the aggregate result only when no
breaching scanned ticket has a failing update; a failing update on a
breaching scanned ticket (all earlier breaching scanned tickets updating
fine) makes the whole call reject with that failure, every qualifying
ticket after the failing one is left exactly as it was, and the
escalations already performed before the failure remain in the store. -/
theorem c2_sweep_failure_amended :
    (∀ (cfg : SLAConfig) (db : DB) (now : Int) (fails : String → Bool),
      (∀ t ∈ db.tickets.filter sweepSelecciona,
        excedeSLA cfg db.clientes now t = true → fails t.id = false) →
      ∃ db2 res, escalarTicketsPorSLA cfg db now fails = (db2, Except.ok res))
    ∧
    (∀ (cfg : SLAConfig) (db : DB) (now : Int) (fails : String → Bool)
        (ts1 : List Ticket) (t : Ticket) (ts2 : List Ticket),
      WF db →
      db.tickets.filter sweepSelecciona = ts1 ++ t :: ts2 →
      (∀ u ∈ ts1, excedeSLA cfg db.clientes now u = true → fails u.id = false) →
      excedeSLA cfg db.clientes now t = true → fails t.id = true →
      ∃ db2, escalarTicketsPorSLA cfg db now fails
          = (db2, Except.error (StoreError.updateFailed t.id))
        ∧ (∀ u ∈ ts2, u ∈ db2.tickets)
        ∧ (∀ u ∈ ts1, excedeSLA cfg db.clientes now u = true →
            escaladoRow u.nivelEscalamiento u ∈ db2.tickets)) := by
  constructor
  · intro cfg db now fails h
    obtain ⟨tickets2, acc2, heq⟩ :=
      sweepLoop_ok_nofail cfg db.clientes now fails (db.tickets.filter sweepSelecciona)
        db.tickets [] h
    refine ⟨{ db with tickets := tickets2 },
      mkSweepResult (db.tickets.filter sweepSelecciona).length acc2.length acc2, ?_⟩
    simp only [escalarTicketsPorSLA, heq, mkSweepResult]
  · intro cfg db now fails ts1 t ts2 hwf hsplit h1 hex hf
    have hnodup : ((ts1 ++ t :: ts2).map Ticket.id).Nodup := by
      rw [← hsplit]
      exact ((List.filter_sublist db.tickets).map Ticket.id).nodup hwf
    have hrowmem : ∀ u ∈ ts1, u ∈ db.tickets := by
      intro u hu
      have : u ∈ db.tickets.filter sweepSelecciona := by
        rw [hsplit]
        exact List.mem_append_left _ hu
      exact List.mem_of_mem_filter this
    have hsnap : ∀ u ∈ ts1, ∀ v ∈ db.tickets, v.id = u.id → v = u :=
      fun u hu v hv hid => WF_unique hwf hv (hrowmem u hu) hid
    obtain ⟨tickets2, heq, hpres, hescprev⟩ :=
      sweepLoop_error_split cfg db.clientes now fails t ts2 hex hf ts1 db.tickets []
        h1 hrowmem hsnap hnodup
    refine ⟨{ db with tickets := tickets2 }, ?_, ?_, ?_⟩
    · simp only [escalarTicketsPorSLA, hsplit, heq]
    · intro u hu
      have humem : u ∈ db.tickets := by
        have : u ∈ db.tickets.filter sweepSelecciona := by
          rw [hsplit]
          simp [hu]
        exact List.mem_of_mem_filter this
      have hid : u.id ∉ ts1.map Ticket.id := by
        simp only [List.map_append, List.map_cons, List.nodup_append] at hnodup
        intro hin
        exact hnodup.2.2 hin (by simp [List.mem_cons, List.mem_map]; right; exact ⟨u, hu, rfl⟩)
      exact hpres u humem hid
    · exact hescprev

/-- Witness for c2_sweep_failure_amended at concrete inputs: with three
breaching tickets and the store failing on the second one, the sweep
rejects with that failure, the third ticket stays as it was, and the
escalation of the first ticket (performed before the failure) remains. -/
theorem c2_sweep_failure_amended_witness :
    (∃ db2 res,
      escalarTicketsPorSLA defaultSLA
          (mkDB [mkCliente "c1" TipoCliente.NORMAL] []
            [{ ticketBase with id := "t1" }, { ticketBase with id := "t2" }])
          108000000 (fun _ => false)
        = (db2, Except.ok res))
    ∧
    (∃ db2,
      escalarTicketsPorSLA defaultSLA
          (mkDB [mkCliente "c1" TipoCliente.NORMAL] []
            [{ ticketBase with id := "t1" }, { ticketBase with id := "t2" },
             { ticketBase with id := "t3" }])
          108000000 (fun id => id == "t2")
        = (db2, Except.error (StoreError.updateFailed "t2"))
      ∧ (∀ u ∈ [{ ticketBase with id := "t3" }], u ∈ db2.tickets)
      ∧ (∀ u ∈ [{ ticketBase with id := "t1" }],
          excedeSLA defaultSLA [mkCliente "c1" TipoCliente.NORMAL] 108000000 u = true →
          escaladoRow u.nivelEscalamiento u ∈ db2.tickets)) :=
  ⟨c2_sweep_failure_amended.1 defaultSLA
    (mkDB [mkCliente "c1" TipoCliente.NORMAL] []
      [{ ticketBase with id := "t1" }, { ticketBase with id := "t2" }])
    108000000 (fun _ => false) (by decide),
   c2_sweep_failure_amended.2 defaultSLA
    (mkDB [mkCliente "c1" TipoCliente.NORMAL] []
      [{ ticketBase with id := "t1" }, { ticketBase with id := "t2" },
       { ticketBase with id := "t3" }])
    108000000 (fun id => id == "t2")
    [{ ticketBase with id := "t1" }] { ticketBase with id := "t2" }
    [{ ticketBase with id := "t3" }]
    (by simp only [WF]; decide) (by decide) (by decide) (by decide) (by decide)⟩

/-- Failure-free sweep loop over a snapshot whose rows agree with the
store and whose ids are unique: the final store maps exactly the breaching
snapshot ids to their escalated rows, and the collected ids are the
breaching snapshot ids in scan order. -/
theorem sweepLoop_nofail_map (cfg : SLAConfig) (cls : List Cliente) (now : Int) :
    ∀ (ts tickets : List Ticket) (acc : List String),
    (∀ t ∈ ts, ∀ v ∈ tickets, v.id = t.id → v = t) →
    (ts.map Ticket.id).Nodup →
    sweepLoop cfg cls now (fun _ => false) ts tickets acc
      = (tickets.map (fun u =>
            if u.id ∈ (ts.filter (excedeSLA cfg cls now)).map Ticket.id
            then escaladoRow u.nivelEscalamiento u else u),
         Except.ok (acc ++ (ts.filter (excedeSLA cfg cls now)).map Ticket.id)) := by
  intro ts
  induction ts with
  | nil =>
    intro tickets acc _ _
    simp [sweepLoop]
  | cons t rest ih =>
    intro tickets acc hsnap hnodup
    simp only [List.map_cons, List.nodup_cons] at hnodup
    have htid : t.id ∉ rest.map Ticket.id := hnodup.1
    have hnodup' : (rest.map Ticket.id).Nodup := hnodup.2
    have hbrsub : ((rest.filter (excedeSLA cfg cls now)).map Ticket.id) ⊆ rest.map Ticket.id :=
      ((List.filter_sublist rest).map Ticket.id).subset
    by_cases hex : excedeSLA cfg cls now t = true
    · have hsnap' : ∀ s ∈ rest,
          ∀ v ∈ updateRows tickets t.id (escaladoRow t.nivelEscalamiento),
          v.id = s.id → v = s := by
        intro s hs v hv hid
        simp only [updateRows, List.mem_map] at hv
        obtain ⟨z, hz, hzv⟩ := hv
        by_cases hzt : z.id = t.id
        · exfalso
          apply htid
          have hvz : v.id = z.id := by
            rw [← hzv, if_pos hzt]
            rfl
          have : t.id = s.id := by rw [← hzt, ← hvz, hid]
          rw [this]
          exact List.mem_map.mpr ⟨s, hs, rfl⟩
        · rw [if_neg hzt] at hzv
          subst hzv
          exact hsnap s (List.mem_cons_of_mem t hs) z hz hid
      simp only [sweepLoop, hex, if_true]
      rw [if_neg (by simp)]
      rw [ih (updateRows tickets t.id (escaladoRow t.nivelEscalamiento)) (acc ++ [t.id])
        hsnap' hnodup']
      refine congrArg₂ Prod.mk ?_ ?_
      · simp only [updateRows, List.map_map]
        refine List.map_congr_left ?_
        intro z hz
        simp only [Function.comp_apply, List.filter_cons, hex, if_true, List.map_cons]
        by_cases hzt : z.id = t.id
        · have hzt2 : z = t := hsnap t (List.mem_cons_self t rest) z hz hzt
          rw [if_pos hzt]
          have hyid : (escaladoRow t.nivelEscalamiento z).id = z.id := rfl
          have hnot : (escaladoRow t.nivelEscalamiento z).id
              ∉ (rest.filter (excedeSLA cfg cls now)).map Ticket.id := by
            rw [hyid, hzt]
            intro hc
            exact htid (hbrsub hc)
          rw [if_neg hnot, if_pos (by rw [hzt]; exact List.mem_cons_self _ _)]
          rw [hzt2]
        · rw [if_neg hzt]
          have hiff : z.id ∈ t.id :: (rest.filter (excedeSLA cfg cls now)).map Ticket.id
              ↔ z.id ∈ (rest.filter (excedeSLA cfg cls now)).map Ticket.id := by
            simp [List.mem_cons, hzt]
          by_cases hzin : z.id ∈ (rest.filter (excedeSLA cfg cls now)).map Ticket.id
          · rw [if_pos hzin, if_pos (hiff.mpr hzin)]
          · rw [if_neg hzin, if_neg (fun hc => hzin (hiff.mp hc))]
      · simp [List.filter_cons, hex]
    · have hsnap' : ∀ s ∈ rest, ∀ v ∈ tickets, v.id = s.id → v = s :=
        fun s hs => hsnap s (List.mem_cons_of_mem t hs)
      simp only [sweepLoop]
      rw [if_neg hex]
      rw [ih tickets acc hsnap' hnodup']
      have hfilter : List.filter (excedeSLA cfg cls now) (t :: rest)
          = List.filter (excedeSLA cfg cls now) rest := by
        simp [List.filter_cons, hex]
      rw [hfilter]

/-- C4: with no store failures, the sweep scans exactly the non-deleted
ABIERTO or EN_PROGRESO tickets, escalates exactly the scanned tickets whose
elapsed time strictly exceeds their client's SLA window (VIP window for VIP
clients, normal window otherwise) — setting estado ESCALADO and advancing
NIVEL_1 to NIVEL_2 and anything else to NIVEL_3 — records exactly those ids
in ticketsEscalados, and touches no other row. -/
theorem c4_sweep_spec (cfg : SLAConfig) (db : DB) (now : Int) (hwf : WF db) :
    escalarTicketsPorSLA cfg db now (fun _ => false)
      = ({ db with tickets := specSweepTickets cfg db now },
         Except.ok (mkSweepResult (db.tickets.filter sweepSelecciona).length
           (specSweepEscalatedIds cfg db now).length (specSweepEscalatedIds cfg db now))) := by
  have hsnap : ∀ t ∈ db.tickets.filter sweepSelecciona, ∀ v ∈ db.tickets,
      v.id = t.id → v = t := by
    intro t ht v hv hid
    exact WF_unique hwf hv (List.mem_of_mem_filter ht) hid
  have hnodup : ((db.tickets.filter sweepSelecciona).map Ticket.id).Nodup :=
    ((List.filter_sublist db.tickets).map Ticket.id).nodup hwf
  have hloop := sweepLoop_nofail_map cfg db.clientes now
    (db.tickets.filter sweepSelecciona) db.tickets [] hsnap hnodup
  simp only [escalarTicketsPorSLA, hloop]
  simp [specSweepTickets, specSweepEscalatedIds, mkSweepResult]

/-- Witness for c4_sweep_spec: one VIP ticket created three hours before
the sweep against a two-hour VIP window gets escalated to NIVEL_2. -/
theorem c4_sweep_spec_witness :
    escalarTicketsPorSLA defaultSLA (mkDB [mkCliente "c1" TipoCliente.VIP] [] [ticketBase])
        10800000 (fun _ => false)
      = (mkDB [mkCliente "c1" TipoCliente.VIP] []
          [{ ticketBase with estado := EstadoTicket.ESCALADO, nivelEscalamiento := NivelEscalamiento.NIVEL_2 }],
         Except.ok (mkSweepResult 1 1 ["t1"])) := by
  have h := c4_sweep_spec defaultSLA (mkDB [mkCliente "c1" TipoCliente.VIP] [] [ticketBase])
    10800000 (by simp only [WF]; decide)
  rw [h]
  decide

/-- Composing two escalation patches keeps only the outer level. -/
theorem escaladoRow_escaladoRow (n n2 : NivelEscalamiento) (z : Ticket) :
    escaladoRow n2 (escaladoRow n z) = escaladoRow n2 z := rfl

/-- Rows after any sweep loop (failing or not): the store is a row-wise map
that leaves a row alone or applies the escalation patch of some snapshot
ticket with the row's id. -/
theorem sweepLoop_rows_shape (cfg : SLAConfig) (cls : List Cliente) (now : Int)
    (fails : String → Bool) :
    ∀ (ts tickets : List Ticket) (acc : List String),
    ∃ G : Ticket → Ticket,
      (sweepLoop cfg cls now fails ts tickets acc).1 = tickets.map G ∧
      ∀ z : Ticket, G z = z ∨
        ∃ t ∈ ts, z.id = t.id ∧ G z = escaladoRow t.nivelEscalamiento z := by
  intro ts
  induction ts with
  | nil =>
    intro tickets acc
    exact ⟨fun z => z, by simp [sweepLoop, List.map_id'], fun z => Or.inl rfl⟩
  | cons t rest ih =>
    intro tickets acc
    by_cases hex : excedeSLA cfg cls now t = true
    · by_cases hf : fails t.id = true
      · refine ⟨fun z => z, ?_, fun z => Or.inl rfl⟩
        simp [sweepLoop, hex, hf, List.map_id']
      · obtain ⟨G1, hmap, hprop⟩ :=
          ih (updateRows tickets t.id (escaladoRow t.nivelEscalamiento)) (acc ++ [t.id])
        refine ⟨fun z => G1 (if z.id = t.id then escaladoRow t.nivelEscalamiento z else z),
          ?_, ?_⟩
        · have hloop : (sweepLoop cfg cls now fails (t :: rest) tickets acc).1
              = (sweepLoop cfg cls now fails rest
                  (updateRows tickets t.id (escaladoRow t.nivelEscalamiento))
                  (acc ++ [t.id])).1 := by
            simp [sweepLoop, hex, hf]
          rw [hloop, hmap, updateRows, List.map_map]
          rfl
        · intro z
          simp only []
          by_cases hzt : z.id = t.id
          · rw [if_pos hzt]
            rcases hprop (escaladoRow t.nivelEscalamiento z) with h1 | ⟨s, hs, hsid, hesc⟩
            · right
              exact ⟨t, List.mem_cons_self t rest, hzt, h1⟩
            · right
              refine ⟨s, List.mem_cons_of_mem t hs, ?_, ?_⟩
              · simpa [escaladoRow] using hsid
              · rw [hesc, escaladoRow_escaladoRow]
          · rw [if_neg hzt]
            rcases hprop z with h1 | ⟨s, hs, hsid, hesc⟩
            · exact Or.inl h1
            · exact Or.inr ⟨s, List.mem_cons_of_mem t hs, hsid, hesc⟩
    · obtain ⟨G1, hmap, hprop⟩ := ih tickets acc
      refine ⟨G1, ?_, ?_⟩
      · have hloop : (sweepLoop cfg cls now fails (t :: rest) tickets acc).1
            = (sweepLoop cfg cls now fails rest tickets acc).1 := by
          simp only [sweepLoop]
          rw [if_neg hex]
        rw [hloop, hmap]
      · intro z
        rcases hprop z with h1 | ⟨s, hs, hsid, hesc⟩
        · exact Or.inl h1
        · exact Or.inr ⟨s, List.mem_cons_of_mem t hs, hsid, hesc⟩

/-- Store component of any sweep call: the loop's final rows, the other
tables untouched. -/
theorem escalar_store_shape (cfg : SLAConfig) (db : DB) (now : Int) (fails : String → Bool)
    (db2 : DB) (r : Except StoreError SweepResult)
    (h : escalarTicketsPorSLA cfg db now fails = (db2, r)) :
    db2.clientes = db.clientes ∧ db2.agentes = db.agentes ∧
    db2.tickets = (sweepLoop cfg db.clientes now fails
      (db.tickets.filter sweepSelecciona) db.tickets []).1 := by
  rcases hloop : sweepLoop cfg db.clientes now fails
      (db.tickets.filter sweepSelecciona) db.tickets [] with ⟨tickets2, res⟩
  cases res with
  | ok acc =>
    simp only [escalarTicketsPorSLA, hloop] at h
    have hdb := congrArg Prod.fst h
    simp at hdb
    rw [← hdb]
    exact ⟨rfl, rfl, rfl⟩
  | error e =>
    simp only [escalarTicketsPorSLA, hloop] at h
    have hdb := congrArg Prod.fst h
    simp at hdb
    rw [← hdb]
    exact ⟨rfl, rfl, rfl⟩

/-- An escalation patch writes the advanced level. -/
theorem escaladoRow_nivel (n : NivelEscalamiento) (u : Ticket) :
    (escaladoRow n u).nivelEscalamiento = nuevoNivelDe n := rfl

/-- Advancing a level never lowers it. -/
theorem nivelToNat_le_nuevoNivelDe (n : NivelEscalamiento) :
    nivelToNat n ≤ nivelToNat (nuevoNivelDe n) := by
  cases n <;> simp [nivelToNat, nuevoNivelDe]

/-- One service step keeps ids unique and never lowers any stored row's
escalation level. -/
theorem step_nivel_mono {db db2 : DB} (hstep : Step db db2) (hwf : WF db) :
    WF db2 ∧ ∀ t ∈ db.tickets, ∃ t2 ∈ db2.tickets, t2.id = t.id ∧
      nivelToNat t.nivelEscalamiento ≤ nivelToNat t2.nivelEscalamiento := by
  cases hstep with
  | create data newId now db2 t hok hfresh =>
    obtain ⟨hcli, hag, htick, hid, hestado, hnivel, hfres, htres, hdel⟩ := createTicket_ok_inv hok
    constructor
    · simp only [WF, htick, List.map_append]
      rw [List.nodup_append]
      refine ⟨hwf, by simp, ?_⟩
      intro a ha hb
      simp only [List.map_cons, List.map_nil, List.mem_singleton] at hb
      rw [hb, hid] at ha
      exact hfresh ha
    · intro s hs
      refine ⟨s, ?_, rfl, le_refl _⟩
      rw [htick]
      exact List.mem_append_left _ hs
  | update ticketId data userId userRol now db2 t hok =>
    obtain ⟨ticket, hget, hdb2, ht2, htrans⟩ := updateTicket_ok_inv hok
    have htick : db2.tickets
        = updateRows db.tickets ticketId (applyUpdateData (buildUpdateData data ticket now)) := by
      rw [hdb2]
      rfl
    constructor
    · simp only [WF, htick]
      rw [updateRows_map_id _ _ _ (fun u => applyUpdateData_id _ u)]
      exact hwf
    · intro s hs
      refine ⟨if s.id = ticketId
          then applyUpdateData (buildUpdateData data ticket now) s else s, ?_, ?_, ?_⟩
      · rw [htick]
        exact List.mem_map_of_mem _ hs
      · by_cases hcase : s.id = ticketId
        · rw [if_pos hcase, applyUpdateData_id, hcase]
        · rw [if_neg hcase]
      · by_cases hcase : s.id = ticketId
        · rw [if_pos hcase, applyUpdateData_nivel]
        · rw [if_neg hcase]
  | delete ticketId userId userRol now db2 hok =>
    obtain ⟨ticket, hget, hcli, hag, htick⟩ := deleteTicket_ok_inv hok
    constructor
    · simp only [WF, htick]
      rw [updateRows_map_id db.tickets ticketId
        (fun u => { u with deletedAt := some now }) (fun u => rfl)]
      exact hwf
    · intro s hs
      refine ⟨if s.id = ticketId then { s with deletedAt := some now } else s, ?_, ?_, ?_⟩
      · rw [htick]
        exact List.mem_map_of_mem _ hs
      · by_cases hcase : s.id = ticketId
        · rw [if_pos hcase, hcase]
        · rw [if_neg hcase]
      · by_cases hcase : s.id = ticketId
        · rw [if_pos hcase]
        · rw [if_neg hcase]
  | sweep cfg now fails db2 r heq =>
    obtain ⟨hcli, hag, htick⟩ := escalar_store_shape cfg db now fails db2 r heq
    obtain ⟨G, hmap, hprop⟩ := sweepLoop_rows_shape cfg db.clientes now fails
      (db.tickets.filter sweepSelecciona) db.tickets []
    have htick2 : db2.tickets = db.tickets.map G := by rw [htick, hmap]
    have hGid : ∀ z, (G z).id = z.id := by
      intro z
      rcases hprop z with h | ⟨t, _, _, hesc⟩
      · rw [h]
      · rw [hesc]
        rfl
    constructor
    · simp only [WF, htick2, List.map_map]
      have hids : List.map (Ticket.id ∘ G) db.tickets = db.tickets.map Ticket.id :=
        List.map_congr_left (fun z _ => hGid z)
      rw [hids]
      exact hwf
    · intro s hs
      refine ⟨G s, ?_, hGid s, ?_⟩
      · rw [htick2]
        exact List.mem_map_of_mem G hs
      · rcases hprop s with h | ⟨t, ht, hsid, hesc⟩
        · rw [h]
        · have hst : s = t := WF_unique hwf hs (List.mem_of_mem_filter ht) hsid
          rw [hesc, escaladoRow_nivel, ← hst]
          exact nivelToNat_le_nuevoNivelDe s.nivelEscalamiento

/-- Any reachable store keeps ids unique and never lowers any stored row's
escalation level. -/
theorem reach_nivel_mono {db db2 : DB} (hreach : Reach db db2) (hwf : WF db) :
    WF db2 ∧ ∀ t ∈ db.tickets, ∃ t2 ∈ db2.tickets, t2.id = t.id ∧
      nivelToNat t.nivelEscalamiento ≤ nivelToNat t2.nivelEscalamiento := by
  induction hreach with
  | refl => exact ⟨hwf, fun t ht => ⟨t, ht, rfl, le_refl _⟩⟩
  | tail hab hbc ih =>
    obtain ⟨hwfb, hsimb⟩ := ih
    obtain ⟨hwfc, hsimc⟩ := step_nivel_mono hbc hwfb
    refine ⟨hwfc, ?_⟩
    intro t ht
    obtain ⟨t1, ht1, hid1, hle1⟩ := hsimb t ht
    obtain ⟨t2, ht2, hid2, hle2⟩ := hsimc t1 ht1
    exact ⟨t2, ht2, by rw [hid2, hid1], le_trans hle1 hle2⟩

/-- C8: a created ticket starts at NIVEL_1, and across any sequence of
service operations (creations with store-fresh ids, updates, soft deletes,
sweeps — failing or not) the escalation level of every stored row is
monotonically non-decreasing, the row surviving under its id. -/
theorem c8_escalation_tier_monotone :
    (∀ (db : DB) (data : CreateTicketDto) (newId : String) (now : Int) (db2 : DB) (t : Ticket),
      createTicket db data newId now = Except.ok (db2, t) →
      t.nivelEscalamiento = NivelEscalamiento.NIVEL_1)
    ∧
    (∀ db db2 : DB, WF db → Reach db db2 →
      ∀ t ∈ db.tickets, ∃ t2 ∈ db2.tickets, t2.id = t.id ∧
        nivelToNat t.nivelEscalamiento ≤ nivelToNat t2.nivelEscalamiento) := by
  constructor
  · intro db data newId now db2 t hok
    exact (createTicket_ok_inv hok).2.2.2.2.2.1
  · intro db db2 hwf hreach
    exact (reach_nivel_mono hreach hwf).2

/-- Witness for c8_escalation_tier_monotone: a concrete creation starts at
NIVEL_1, and after a concrete breaching sweep the stored row's level rose
from NIVEL_1 to NIVEL_2. -/
theorem c8_escalation_tier_monotone_witness :
    ({ ticketBase with id := "n1", titulo := "ttt", descripcion := "ddddd" }.nivelEscalamiento
      = NivelEscalamiento.NIVEL_1)
    ∧
    (∃ t2 ∈ (mkDB [mkCliente "c1" TipoCliente.VIP] []
        [{ ticketBase with estado := EstadoTicket.ESCALADO, nivelEscalamiento := NivelEscalamiento.NIVEL_2 }]).tickets,
      t2.id = ticketBase.id ∧
        nivelToNat ticketBase.nivelEscalamiento ≤ nivelToNat t2.nivelEscalamiento) := by
  constructor
  · exact c8_escalation_tier_monotone.1 (mkDB [mkCliente "c1" TipoCliente.NORMAL] [] [])
      { titulo := "ttt", descripcion := "ddddd", clienteId := "c1", agenteAsignadoId := none }
      "n1" 0 (mkDB [mkCliente "c1" TipoCliente.NORMAL] []
        [{ ticketBase with id := "n1", titulo := "ttt", descripcion := "ddddd" }])
      { ticketBase with id := "n1", titulo := "ttt", descripcion := "ddddd" } (by decide)
  · exact c8_escalation_tier_monotone.2
      (mkDB [mkCliente "c1" TipoCliente.VIP] [] [ticketBase])
      (mkDB [mkCliente "c1" TipoCliente.VIP] []
        [{ ticketBase with estado := EstadoTicket.ESCALADO, nivelEscalamiento := NivelEscalamiento.NIVEL_2 }])
      (by simp only [WF]; decide)
      (Relation.ReflTransGen.single
        (Step.sweep _ defaultSLA 10800000 (fun _ => false) _
          (Except.ok (mkSweepResult 1 1 ["t1"])) (by decide)))
      ticketBase (by decide)

/-- An escalation patch never touches the resolution timestamp. -/
theorem escaladoRow_fecha (n : NivelEscalamiento) (u : Ticket) :
    (escaladoRow n u).fechaResolucion = u.fechaResolucion := rfl

/-- An escalation patch never touches the resolution duration. -/
theorem escaladoRow_tiempo (n : NivelEscalamiento) (u : Ticket) :
    (escaladoRow n u).tiempoResolucion = u.tiempoResolucion := rfl

/-- A scanned ticket is ABIERTO or EN_PROGRESO. -/
theorem sweepSelecciona_estado {t : Ticket} (h : sweepSelecciona t = true) :
    t.estado = EstadoTicket.ABIERTO ∨ t.estado = EstadoTicket.EN_PROGRESO := by
  simp only [sweepSelecciona, Bool.and_eq_true, Bool.or_eq_true, decide_eq_true_eq] at h
  exact h.1

/-- Resolution fields written by the stamping branch of updateTicket. -/
theorem applyBuild_fields_pos (data : UpdateTicketDto) (ticket z : Ticket) (now : Int)
    (h : data.estado = some EstadoTicket.RESUELTO ∧ ticket.estado ≠ EstadoTicket.RESUELTO) :
    (applyUpdateData (buildUpdateData data ticket now) z).fechaResolucion = some now ∧
    (applyUpdateData (buildUpdateData data ticket now) z).tiempoResolucion
      = some (Int.fdiv (now - ticket.fechaCreacion) (1000 * 60)) := by
  simp only [applyUpdateData, buildUpdateData]
  rw [if_pos h]
  exact ⟨rfl, rfl⟩

/-- Resolution fields kept by a non-stamping update. -/
theorem applyBuild_fields_neg (data : UpdateTicketDto) (ticket z : Ticket) (now : Int)
    (h : ¬(data.estado = some EstadoTicket.RESUELTO ∧ ticket.estado ≠ EstadoTicket.RESUELTO)) :
    (applyUpdateData (buildUpdateData data ticket now) z).fechaResolucion = z.fechaResolucion ∧
    (applyUpdateData (buildUpdateData data ticket now) z).tiempoResolucion
      = z.tiempoResolucion := by
  simp only [applyUpdateData, buildUpdateData]
  rw [if_neg h]
  exact ⟨rfl, rfl⟩

/-- Status written by any update: the patched status when present, the
row's own otherwise. -/
theorem applyBuild_estado_getD (data : UpdateTicketDto) (ticket z : Ticket) (now : Int) :
    (applyUpdateData (buildUpdateData data ticket now) z).estado = data.estado.getD z.estado := by
  simp only [applyUpdateData, buildUpdateData]
  split <;> rfl

/-- One service step preserves unique ids and the resolution invariant, and
never changes an already-set resolution timestamp or duration of any
surviving row. -/
theorem step_resol_preserve {db db2 : DB} (hstep : Step db db2) (hwf : WF db)
    (hinv : ResolInv db) :
    WF db2 ∧ ResolInv db2 ∧ ∀ t ∈ db.tickets, ∃ t2 ∈ db2.tickets, t2.id = t.id ∧
      (t.fechaResolucion = none ∨
        (t2.fechaResolucion = t.fechaResolucion ∧ t2.tiempoResolucion = t.tiempoResolucion)) := by
  refine ⟨(step_nivel_mono hstep hwf).1, ?_⟩
  cases hstep with
  | create data newId now db2 t hok hfresh =>
    obtain ⟨hcli, hag, htick, hid, hestado, hnivel, hfres, htres, hdel⟩ := createTicket_ok_inv hok
    constructor
    · intro v hv hvf
      rw [htick] at hv
      rcases List.mem_append.mp hv with hvold | hvnew
      · exact hinv v hvold hvf
      · rw [List.mem_singleton.mp hvnew] at hvf
        exact absurd hfres hvf
    · intro s hs
      refine ⟨s, ?_, rfl, Or.inr ⟨rfl, rfl⟩⟩
      rw [htick]
      exact List.mem_append_left _ hs
  | update ticketId data userId userRol now db2 t hok =>
    obtain ⟨ticket, hget, hdb2, ht2, htrans⟩ := updateTicket_ok_inv hok
    obtain ⟨hfind, hdelna⟩ := getTicketById_ok_inv hget
    obtain ⟨hmem, hid⟩ := findTicketById_mem hfind
    have htick : db2.tickets
        = updateRows db.tickets ticketId (applyUpdateData (buildUpdateData data ticket now)) := by
      rw [hdb2]
      rfl
    by_cases hcond : data.estado = some EstadoTicket.RESUELTO
        ∧ ticket.estado ≠ EstadoTicket.RESUELTO
    · have hfechanone : ticket.fechaResolucion = none := by
        by_contra hne
        rcases hinv ticket hmem hne with hres | hcer
        · exact hcond.2 hres
        · have := htrans EstadoTicket.RESUELTO hcond.1
          rw [hcer] at this
          simp [transicionesValidas] at this
      constructor
      · intro v hv hvf
        rw [htick] at hv
        simp only [updateRows, List.mem_map] at hv
        obtain ⟨z, hz, hzv⟩ := hv
        by_cases hzt : z.id = ticketId
        · have hzt2 : z = ticket := WF_unique hwf hz hmem (by rw [hzt, hid])
          rw [if_pos hzt] at hzv
          left
          rw [← hzv, applyBuild_estado_getD, hcond.1]
          rfl
        · rw [if_neg hzt] at hzv
          rw [← hzv] at hvf ⊢
          exact hinv z hz hvf
      · intro s hs
        refine ⟨if s.id = ticketId
            then applyUpdateData (buildUpdateData data ticket now) s else s, ?_, ?_, ?_⟩
        · rw [htick]
          exact List.mem_map_of_mem _ hs
        · by_cases hcase : s.id = ticketId
          · rw [if_pos hcase, applyUpdateData_id, hcase]
          · rw [if_neg hcase]
        · by_cases hcase : s.id = ticketId
          · have hst : s = ticket := WF_unique hwf hs hmem (by rw [hcase, hid])
            left
            rw [hst]
            exact hfechanone
          · rw [if_neg hcase]
            exact Or.inr ⟨rfl, rfl⟩
    · constructor
      · intro v hv hvf
        rw [htick] at hv
        simp only [updateRows, List.mem_map] at hv
        obtain ⟨z, hz, hzv⟩ := hv
        by_cases hzt : z.id = ticketId
        · have hzt2 : z = ticket := WF_unique hwf hz hmem (by rw [hzt, hid])
          rw [if_pos hzt] at hzv
          have hvfecha := (applyBuild_fields_neg data ticket z now hcond).1
          rw [hzv] at hvfecha
          rw [hvfecha, hzt2] at hvf
          have hold := hinv ticket hmem hvf
          have hvestado : v.estado = data.estado.getD z.estado := by
            rw [← hzv]
            exact applyBuild_estado_getD data ticket z now
          cases hdata : data.estado with
          | none =>
            rw [hvestado, hdata, Option.getD_none, hzt2]
            exact hold
          | some nuevo =>
            have hnm := htrans nuevo hdata
            rcases hold with hres | hcer
            · rw [hres] at hnm
              simp [transicionesValidas] at hnm
              rw [hvestado, hdata, Option.getD_some, hnm]
              right
              rfl
            · rw [hcer] at hnm
              simp [transicionesValidas] at hnm
        · rw [if_neg hzt] at hzv
          rw [← hzv] at hvf ⊢
          exact hinv z hz hvf
      · intro s hs
        refine ⟨if s.id = ticketId
            then applyUpdateData (buildUpdateData data ticket now) s else s, ?_, ?_, ?_⟩
        · rw [htick]
          exact List.mem_map_of_mem _ hs
        · by_cases hcase : s.id = ticketId
          · rw [if_pos hcase, applyUpdateData_id, hcase]
          · rw [if_neg hcase]
        · by_cases hcase : s.id = ticketId
          · rw [if_pos hcase]
            exact Or.inr (applyBuild_fields_neg data ticket s now hcond)
          · rw [if_neg hcase]
            exact Or.inr ⟨rfl, rfl⟩
  | delete ticketId userId userRol now db2 hok =>
    obtain ⟨ticket, hget, hcli, hag, htick⟩ := deleteTicket_ok_inv hok
    constructor
    · intro v hv hvf
      rw [htick] at hv
      simp only [updateRows, List.mem_map] at hv
      obtain ⟨z, hz, hzv⟩ := hv
      by_cases hzt : z.id = ticketId
      · rw [if_pos hzt] at hzv
        rw [← hzv] at hvf ⊢
        exact hinv z hz hvf
      · rw [if_neg hzt] at hzv
        rw [← hzv] at hvf ⊢
        exact hinv z hz hvf
    · intro s hs
      refine ⟨if s.id = ticketId then { s with deletedAt := some now } else s, ?_, ?_, ?_⟩
      · rw [htick]
        exact List.mem_map_of_mem _ hs
      · by_cases hcase : s.id = ticketId
        · rw [if_pos hcase, hcase]
        · rw [if_neg hcase]
      · by_cases hcase : s.id = ticketId
        · rw [if_pos hcase]
          exact Or.inr ⟨rfl, rfl⟩
        · rw [if_neg hcase]
          exact Or.inr ⟨rfl, rfl⟩
  | sweep cfg now fails db2 r heq =>
    obtain ⟨hcli, hag, htick⟩ := escalar_store_shape cfg db now fails db2 r heq
    obtain ⟨G, hmap, hprop⟩ := sweepLoop_rows_shape cfg db.clientes now fails
      (db.tickets.filter sweepSelecciona) db.tickets []
    have htick2 : db2.tickets = db.tickets.map G := by rw [htick, hmap]
    constructor
    · intro v hv hvf
      rw [htick2] at hv
      obtain ⟨z, hz, hzv⟩ := List.mem_map.mp hv
      rcases hprop z with hG | ⟨s, hsmem, hsid, hesc⟩
      · rw [hG] at hzv
        rw [← hzv] at hvf ⊢
        exact hinv z hz hvf
      · exfalso
        have hzs : z = s :=
          WF_unique hwf hz (List.mem_of_mem_filter hsmem) hsid
        have hvfecha : v.fechaResolucion = z.fechaResolucion := by
          rw [← hzv, hesc, escaladoRow_fecha]
        rw [hvfecha] at hvf
        have hold := hinv z hz hvf
        have hsel := (List.mem_filter.mp hsmem).2
        rcases sweepSelecciona_estado hsel with h1 | h1 <;>
          rcases hold with h2 | h2 <;> rw [hzs, h1] at h2 <;> cases h2
    · intro s hs
      have hGid : (G s).id = s.id := by
        rcases hprop s with h | ⟨u, _, _, hesc⟩
        · rw [h]
        · rw [hesc]
          rfl
      refine ⟨G s, ?_, hGid, ?_⟩
      · rw [htick2]
        exact List.mem_map_of_mem G hs
      · rcases hprop s with h | ⟨u, _, _, hesc⟩
        · rw [h]
          exact Or.inr ⟨rfl, rfl⟩
        · rw [hesc]
          exact Or.inr ⟨escaladoRow_fecha _ _, escaladoRow_tiempo _ _⟩

/-- Any reachable store preserves unique ids, the resolution invariant and
every already-set resolution stamp. -/
theorem reach_resol_preserve {db db2 : DB} (hreach : Reach db db2) (hwf : WF db)
    (hinv : ResolInv db) :
    WF db2 ∧ ResolInv db2 ∧ ∀ t ∈ db.tickets, ∃ t2 ∈ db2.tickets, t2.id = t.id ∧
      (t.fechaResolucion = none ∨
        (t2.fechaResolucion = t.fechaResolucion ∧ t2.tiempoResolucion = t.tiempoResolucion)) := by
  induction hreach with
  | refl => exact ⟨hwf, hinv, fun t ht => ⟨t, ht, rfl, Or.inr ⟨rfl, rfl⟩⟩⟩
  | tail hab hbc ih =>
    obtain ⟨hwfb, hinvb, hsimb⟩ := ih
    obtain ⟨hwfc, hinvc, hsimc⟩ := step_resol_preserve hbc hwfb hinvb
    refine ⟨hwfc, hinvc, ?_⟩
    intro t ht
    obtain ⟨t1, ht1, hid1, hf1⟩ := hsimb t ht
    obtain ⟨t2, ht2, hid2, hf2⟩ := hsimc t1 ht1
    refine ⟨t2, ht2, by rw [hid2, hid1], ?_⟩
    rcases hf1 with hnone | ⟨hfe1, hti1⟩
    · exact Or.inl hnone
    · rcases hf2 with hnone1 | ⟨hfe2, hti2⟩
      · rw [hfe1] at hnone1
        exact Or.inl hnone1
      · exact Or.inr ⟨by rw [hfe2, hfe1], by rw [hti2, hti1]⟩

/-- C5: a successful updateTicket stamps fechaResolucion = now and
tiempoResolucion = floor((now - fechaCreacion) in minutes) exactly when the
patch sets RESUELTO and the fetched ticket was not RESUELTO, and leaves both
fields untouched otherwise; and across every reachable sequence of service
operations, a row whose resolution timestamp is set keeps both fields
unchanged forever (they are stamped at most once and never reset). -/
theorem c5_resolution_stamped_once :
    (∀ (db : DB) (ticketId : String) (data : UpdateTicketDto) (userId : String)
        (userRol : Rol) (now : Int) (ticket : Ticket) (db2 : DB) (t2 : Ticket),
      getTicketById db ticketId userId userRol = Except.ok ticket →
      updateTicket db ticketId data userId userRol now = Except.ok (db2, t2) →
      ((data.estado = some EstadoTicket.RESUELTO ∧ ticket.estado ≠ EstadoTicket.RESUELTO) →
        t2.fechaResolucion = some now ∧
        t2.tiempoResolucion = some (Int.fdiv (now - ticket.fechaCreacion) (1000 * 60)))
      ∧
      (¬(data.estado = some EstadoTicket.RESUELTO ∧ ticket.estado ≠ EstadoTicket.RESUELTO) →
        t2.fechaResolucion = ticket.fechaResolucion ∧
        t2.tiempoResolucion = ticket.tiempoResolucion))
    ∧
    (∀ db db2 : DB, WF db → ResolInv db → Reach db db2 →
      ∀ t ∈ db.tickets, ∀ v : Int, t.fechaResolucion = some v →
        ∃ t2 ∈ db2.tickets, t2.id = t.id ∧ t2.fechaResolucion = some v ∧
          t2.tiempoResolucion = t.tiempoResolucion) := by
  constructor
  · intro db ticketId data userId userRol now ticket db2 t2 hget hok
    obtain ⟨ticket2, hget2, hdb2, ht2, htrans⟩ := updateTicket_ok_inv hok
    have hsame : ticket2 = ticket := Except.ok.inj (hget2.symm.trans hget)
    subst hsame
    have ht2eq : t2 = applyUpdateData (buildUpdateData data ticket2 now) ticket2 := by
      rw [ht2]
      rfl
    constructor
    · intro hcond
      rw [ht2eq]
      exact applyBuild_fields_pos data ticket2 ticket2 now hcond
    · intro hcond
      rw [ht2eq]
      exact applyBuild_fields_neg data ticket2 ticket2 now hcond
  · intro db db2 hwf hinv hreach t ht v hv
    obtain ⟨-, -, hsim⟩ := reach_resol_preserve hreach hwf hinv
    obtain ⟨t2, ht2, hid, hf⟩ := hsim t ht
    rcases hf with hnone | ⟨hfe, hti⟩
    · rw [hv] at hnone
      cases hnone
    · exact ⟨t2, ht2, hid, by rw [hfe, hv], hti⟩

/-- Witness for c5_resolution_stamped_once: resolving an EN_PROGRESO ticket
two minutes after creation stamps fecha 120000 and duration 2; closing it
later keeps both stamps. -/
theorem c5_resolution_stamped_once_witness :
    (∃ (db2 : DB) (t2 : Ticket),
      updateTicket (mkDB [] [] [{ ticketBase with estado := EstadoTicket.EN_PROGRESO }]) "t1"
          (patchEstado EstadoTicket.RESUELTO) "u" Rol.ADMIN 120000
        = Except.ok (db2, t2)
      ∧ t2.fechaResolucion = some 120000 ∧ t2.tiempoResolucion = some 2)
    ∧
    (∃ t2 ∈ (mkDB [] []
        [{ ticketBase with estado := EstadoTicket.CERRADO, fechaResolucion := some 120000, tiempoResolucion := some 2 }]).tickets,
      t2.id = "t1" ∧ t2.fechaResolucion = some 120000 ∧ t2.tiempoResolucion = some 2) := by
  constructor
  · have hok : updateTicket (mkDB [] [] [{ ticketBase with estado := EstadoTicket.EN_PROGRESO }])
        "t1" (patchEstado EstadoTicket.RESUELTO) "u" Rol.ADMIN 120000
        = Except.ok
            (mkDB [] []
              [{ ticketBase with estado := EstadoTicket.RESUELTO, fechaResolucion := some 120000, tiempoResolucion := some 2 }],
             { ticketBase with estado := EstadoTicket.RESUELTO, fechaResolucion := some 120000, tiempoResolucion := some 2 }) := by
      decide
    have h := (c5_resolution_stamped_once.1
      (mkDB [] [] [{ ticketBase with estado := EstadoTicket.EN_PROGRESO }]) "t1"
      (patchEstado EstadoTicket.RESUELTO) "u" Rol.ADMIN 120000
      { ticketBase with estado := EstadoTicket.EN_PROGRESO } _ _ (by decide) hok).1
      ⟨rfl, by decide⟩
    exact ⟨_, _, hok, h.1, by rw [h.2]; decide⟩
  · have hstep : updateTicket
        (mkDB [] []
          [{ ticketBase with estado := EstadoTicket.RESUELTO, fechaResolucion := some 120000, tiempoResolucion := some 2 }])
        "t1" (patchEstado EstadoTicket.CERRADO) "u" Rol.ADMIN 999999
        = Except.ok
            (mkDB [] []
              [{ ticketBase with estado := EstadoTicket.CERRADO, fechaResolucion := some 120000, tiempoResolucion := some 2 }],
             { ticketBase with estado := EstadoTicket.CERRADO, fechaResolucion := some 120000, tiempoResolucion := some 2 }) := by
      decide
    obtain ⟨t2, ht2, hid, hfe, hti⟩ := c5_resolution_stamped_once.2
      (mkDB [] []
        [{ ticketBase with estado := EstadoTicket.RESUELTO, fechaResolucion := some 120000, tiempoResolucion := some 2 }])
      (mkDB [] []
        [{ ticketBase with estado := EstadoTicket.CERRADO, fechaResolucion := some 120000, tiempoResolucion := some 2 }])
      (by simp only [WF]; decide)
      (by simp only [ResolInv]; decide)
      (Relation.ReflTransGen.single
        (Step.update _ "t1" (patchEstado EstadoTicket.CERRADO) "u" Rol.ADMIN 999999 _ _ hstep))
      { ticketBase with estado := EstadoTicket.RESUELTO, fechaResolucion := some 120000, tiempoResolucion := some 2 }
      (by decide) 120000 rfl
    exact ⟨t2, ht2, hid, hfe, by rw [hti]⟩

end TechSupport
